import Mathlib

/-!
Verification development for the claude-slash repository initialization
workflow.  The Python sources `github_init_command.py` (the standalone
`GitHubInitCommand` class) and `src/claude_slash/commands/github_init.py`
(the packaged `GitHubInitialization` class) are embedded shallowly: the
process working directory, local filesystem, remote repositories and the
log of external process invocations form an explicit state, Python
exceptions become an `Except` layer, and each external `subprocess.run`
outcome is drawn from an oracle `Env` fixed for the run.  Large template
payloads (CI YAML, Docusaurus scaffolding, license bodies) are carried as
opaque string constants; the spec treats them as opaque payloads and no
claim depends on their text.
-/

/-- A directory path, as the list of path segments from the filesystem root. -/
abbrev DirPath := List String

/-- External process invocations made by the tool (git and the gh CLI). -/
inductive Call where
  | gitVersion
  | ghVersion
  | ghAuthStatus
  | ghApiUser
  | ghProjectList
  | nodeVersion
  | gitInit (branch : String)
  | gitBranchMove (branch : String)
  | ghRepoCreate (name : String) (visibility : String)
  | ghApiUserLogin
  | gitRemoteAdd (url : String)
  | ghTopicAdd (topic : String)
  | ghProjectCreate (repo : String)
  | ghFieldCreate (field : String) (ftype : String)
  | ghGitignoreTemplate (name : String)
  | ghBranchProtect (repo : String) (branch : String)
  | gitAdd
  | gitCommit
  | gitPush (branch : String)
  | ghRepoDelete (name : String)
  deriving DecidableEq

/-- Observable effects of a run, in order: process spawns, directory
changes, filesystem mutation. -/
inductive Event where
  | call (c : Call)
  | chdir (p : DirPath)
  | mkdir (p : DirPath)
  | fileWrite (p : DirPath)
  | fileAppend (p : DirPath)
  | rmtree (p : DirPath)
  deriving DecidableEq

/-- The ambient world: current working directory, directories and files
that exist, remote repositories that exist, printed output, and the trace
of effects. -/
structure World where
  cwd : DirPath
  dirs : List DirPath
  files : List (DirPath × String)
  remoteRepos : List String
  output : List String
  trace : List Event
  deriving DecidableEq

/-- Python exceptions that the embedded code raises or catches. -/
inductive PyErr where
  | runtimeError (msg : String)
  | calledProcessError (cmd : String) (stderr : String)
  | fileExistsError (path : String)
  | valueError
  | osError (msg : String)
  deriving DecidableEq

/-- Message used when an exception is interpolated into a printed string. -/
def PyErr.msg : PyErr → String
  | .runtimeError m => m
  | .calledProcessError c st => "Command " ++ c ++ " returned non-zero exit status; stderr: " ++ st
  | .fileExistsError p => "File exists: " ++ p
  | .valueError => "invalid literal for int"
  | .osError m => m

/-- State-and-exception monad: Python statements become actions on a state
`σ` that either return normally or raise, always keeping the state reached
so far (Python exceptions do not roll state back). -/
def M (σ : Type) (α : Type) : Type := σ → Except PyErr α × σ

instance : Monad (M σ) where
  pure a := fun s => (Except.ok a, s)
  bind x f := fun s =>
    match x s with
    | (Except.ok a, s1) => f a s1
    | (Except.error e, s1) => (Except.error e, s1)

@[simp] theorem M.bind_apply {σ α β : Type} (x : M σ α) (f : α → M σ β) (s : σ) :
    (x >>= f) s =
      match x s with
      | (Except.ok a, s1) => f a s1
      | (Except.error e, s1) => (Except.error e, s1) := rfl

@[simp] theorem M.pure_apply {σ α : Type} (a : α) (s : σ) :
    (pure a : M σ α) s = (Except.ok a, s) := rfl

/-- Python raise. -/
def throwErr {σ α : Type} (e : PyErr) : M σ α := fun s => (Except.error e, s)

@[simp] theorem throwErr_apply {σ α : Type} (e : PyErr) (s : σ) :
    (throwErr e : M σ α) s = (Except.error e, s) := rfl

/-- Python try/except: run the body; on an exception run the handler on
the exception (the handler itself may re-raise). -/
def attempt {σ α : Type} (body : M σ α) (handler : PyErr → M σ α) : M σ α := fun s =>
  match body s with
  | (Except.ok a, s1) => (Except.ok a, s1)
  | (Except.error e, s1) => handler e s1

@[simp] theorem attempt_apply {σ α : Type} (body : M σ α) (handler : PyErr → M σ α) (s : σ) :
    attempt body handler s =
      match body s with
      | (Except.ok a, s1) => (Except.ok a, s1)
      | (Except.error e, s1) => handler e s1 := rfl

/-- Python try/finally: the finalizer runs on every exit path; an
exception from the body survives unless the finalizer itself raises. -/
def withFinally {σ α : Type} (body : M σ α) (fin : M σ Unit) : M σ α := fun s =>
  match body s with
  | (Except.ok a, s1) =>
      (match fin s1 with
       | (Except.ok _, s2) => (Except.ok a, s2)
       | (Except.error e2, s2) => (Except.error e2, s2))
  | (Except.error e, s1) =>
      (match fin s1 with
       | (Except.ok _, s2) => (Except.error e, s2)
       | (Except.error e2, s2) => (Except.error e2, s2))

@[simp] theorem withFinally_apply {σ α : Type} (body : M σ α) (fin : M σ Unit) (s : σ) :
    withFinally body fin s =
      match body s with
      | (Except.ok a, s1) =>
          (match fin s1 with
           | (Except.ok _, s2) => (Except.ok a, s2)
           | (Except.error e2, s2) => (Except.error e2, s2))
      | (Except.error e, s1) =>
          (match fin s1 with
           | (Except.ok _, s2) => (Except.error e, s2)
           | (Except.error e2, s2) => (Except.error e2, s2)) := rfl

/-- Whether `pat` occurs at the start of `l`. -/
def charsHavePre (pat l : List Char) : Bool :=
  match pat, l with
  | [], _ => true
  | _ :: _, [] => false
  | p :: ps, x :: xs => p = x && charsHavePre ps xs

/-- Whether `pat` occurs anywhere inside `l`. -/
def charsContain (l pat : List Char) : Bool :=
  match l with
  | [] => pat.isEmpty
  | _ :: xs => charsHavePre pat l || charsContain xs pat

/-- Python substring test `pat in s`, on the underlying character lists. -/
def strContains (s pat : String) : Bool := charsContain s.toList pat.toList

/-- Split a character list on a separator character. -/
def splitChars (c : Char) : List Char → List (List Char)
  | [] => [[]]
  | x :: xs =>
    let r := splitChars c xs
    if x = c then [] :: r
    else
      match r with
      | [] => [[x]]
      | h :: t => (x :: h) :: t

/-- Python `s.split(sep)` for a one-character separator (the only kind the
source uses: "/", ".", ",", newline). -/
def strSplit (s : String) (c : Char) : List String :=
  (splitChars c s.toList).map String.mk

/-- Python whitespace characters recognized by `strip()`. -/
def isSpaceChar (c : Char) : Bool := c = ' ' || c = '\t' || c = '\n' || c = '\r'

/-- Python `s.strip()`. -/
def strStrip (s : String) : String :=
  String.mk (((s.toList.dropWhile isSpaceChar).reverse.dropWhile isSpaceChar).reverse)

/-- Python `s.lower()`. -/
def strLower (s : String) : String := String.mk (s.toList.map Char.toLower)

/-- Python `s.upper()`. -/
def strUpper (s : String) : String := String.mk (s.toList.map Char.toUpper)

/-- Python `s.lstrip("v")`: drop all leading occurrences of the character. -/
def strLstrip (s : String) (c : Char) : String :=
  String.mk (s.toList.dropWhile (fun x => x = c))

/-- Value of a decimal digit, None for other characters. -/
def digitVal (c : Char) : Option Nat :=
  if c = '0' then some 0 else if c = '1' then some 1 else if c = '2' then some 2
  else if c = '3' then some 3 else if c = '4' then some 4 else if c = '5' then some 5
  else if c = '6' then some 6 else if c = '7' then some 7 else if c = '8' then some 8
  else if c = '9' then some 9 else none

/-- Parse an unsigned decimal numeral. -/
def parseDigits : List Char → Option Nat
  | [] => none
  | l => l.foldl (fun acc c =>
      match acc, digitVal c with
      | some n, some d => some (n * 10 + d)
      | _, _ => none) (some 0)

/-- Python string truthiness for optional strings: None and the empty
string are falsy. -/
def optStrTruthy : Option String → Bool
  | none => false
  | some s => s ≠ ""

/-- Python `a or b` for an optional string with a string default. -/
def pyOrDefault (a : Option String) (b : String) : String :=
  match a with
  | none => b
  | some s => if s = "" then b else s

/-- Python `a or b` where both sides are optional strings. -/
def pyOrOpt (a : Option String) (b : Option String) : Option String :=
  match a with
  | none => b
  | some s => if s = "" then b else some s

/-- Python truthiness of an optional list: None and the empty list are falsy. -/
def optListTruthy {α : Type} : Option (List α) → Bool
  | none => false
  | some l => !l.isEmpty

/-- Python `int(...)` on the strings produced by version splitting:
parses an optionally signed decimal integer, None when unparseable
(Python raises ValueError there). -/
def pyToInt (s : String) : Option Int :=
  match (strStrip s).toList with
  | '-' :: rest => (parseDigits rest).map (fun n => -(n : Int))
  | '+' :: rest => (parseDigits rest).map (fun n => (n : Int))
  | l => (parseDigits l).map (fun n => (n : Int))

/-- Whether a path exists (as a directory or a file). -/
def World.pathExists (w : World) (p : DirPath) : Bool :=
  w.dirs.contains p || (w.files.map Prod.fst).contains p

/-- Content of a file if it exists (later writes shadow earlier ones). -/
def World.readFile (w : World) (p : DirPath) : Option String :=
  (w.files.find? (fun e => e.fst = p)).map Prod.snd

/-- Resolve a relative file name (possibly with slashes) against the cwd. -/
def World.resolve (w : World) (name : String) : DirPath :=
  w.cwd ++ strSplit name '/'

example : (⟨["h"], [], [], [], [], []⟩ : World).resolve ".github/workflows/ci.yml"
    = ["h", ".github", "workflows", "ci.yml"] := by decide

example : strContains "insufficient scopes" "scope" = true := by decide
example : strContains "ok" "scope" = false := by decide
example : pyToInt "18" = some 18 := by decide
example : pyToInt "x8" = none := by decide
example : pyOrDefault (some "") "general" = "general" := by decide

/-- Append a printed line. -/
def World.printOut (w : World) (msg : String) : World :=
  { w with output := w.output ++ [msg] }

/-- Record an external process invocation. -/
def World.logCall (w : World) (c : Call) : World :=
  { w with trace := w.trace ++ [.call c] }

/-- Change the working directory (os.chdir; targets in the modelled runs
always exist, so the call itself is modelled as never raising). -/
def World.doChdir (w : World) (p : DirPath) : World :=
  { w with cwd := p, trace := w.trace ++ [.chdir p] }

/-- Add one directory to the filesystem if not present. -/
def World.addDir (w : World) (p : DirPath) : World :=
  if w.dirs.contains p then w else { w with dirs := w.dirs ++ [p] }

/-- Create every directory along `segs` below `base` (mkdir parents=True). -/
def addDirsAlong (w : World) (base : DirPath) : List String → World
  | [] => w
  | seg :: rest => addDirsAlong (w.addDir (base ++ [seg])) (base ++ [seg]) rest

/-- Write a file at a cwd-relative name, shadowing any previous content. -/
def World.doWrite (w : World) (name : String) (content : String) : World :=
  { w with files := (w.resolve name, content) :: w.files,
           trace := w.trace ++ [.fileWrite (w.resolve name)] }

/-- Append to a file at a cwd-relative name (open in "a" mode). -/
def World.doAppend (w : World) (name : String) (content : String) : World :=
  let p := w.resolve name
  let old := (w.readFile p).getD ""
  { w with files := (p, old ++ content) :: w.files,
           trace := w.trace ++ [.fileAppend p] }

/-- Whether `p` is `q` or an ancestor of `q`. -/
def pathIsUnder (p q : DirPath) : Bool :=
  match p, q with
  | [], _ => true
  | _ :: _, [] => false
  | a :: ps, b :: qs => a = b && pathIsUnder ps qs

/-- Recursively delete a directory tree (shutil.rmtree). -/
def World.doRmtree (w : World) (p : DirPath) : World :=
  { w with dirs := w.dirs.filter (fun q => !pathIsUnder p q),
           files := w.files.filter (fun e => !pathIsUnder p e.fst),
           trace := w.trace ++ [.rmtree p] }

/-- Fixed outcome oracle for every external call a run can make; each field
is the exit status (and, where the code reads it, output) of one kind of
subprocess invocation. -/
structure Env where
  gitVersionOk : Bool := true
  gitVersionOut : String := "git version 2.43.0"
  ghVersionOk : Bool := true
  ghVersionOut : String := "gh version 2.40.0"
  ghAuthOk : Bool := true
  ghAuthStderr : String := ""
  ghApiUserOk : Bool := true
  ghProjectListOk : Bool := true
  ghProjectListStderr : String := ""
  nodeOk : Bool := true
  nodeVersionOut : String := "v20.0.0"
  gitInitOk : Bool := true
  gitBranchMoveOk : Bool := true
  ghRepoCreateOk : Bool := true
  ghRepoCreateStderr : String := ""
  ghUserLoginOk : Bool := true
  login : String := "user"
  gitRemoteAddOk : Bool := true
  ghTopicAddOk : Bool := true
  ghProjectCreateOk : Bool := true
  ghProjectCreateStderr : String := ""
  ghProjectCreateOut : String := ""
  ghFieldCreateOk : Bool := true
  ghGitignoreApiOk : Bool := true
  ghGitignoreSource : String := "api-template"
  ghBranchProtectOk : Bool := true
  gitAddOk : Bool := true
  gitCommitOk : Bool := true
  gitPushOk : Bool := true
  ghRepoDeleteOk : Bool := true
  rmtreeOk : Bool := true
  year : Nat := 2025
  deriving DecidableEq

/-- Options of the standalone `GitHubInitCommand` (the `GitHubInitOptions`
dataclass of github_init_command.py), defaults as in the source. -/
structure GitHubInitOptions where
  repo_name : String
  description : Option String := none
  private_ : Bool := true
  license : Option String := none
  gitignore : Option String := none
  readme : Bool := true
  default_branch : String := "main"
  topics : Option (List String) := none
  create_website : Bool := false
  enable_dependabot : Bool := true
  dry_run : Bool := false
  create_project : Bool := true
  project_template : String := "development"
  enable_auto_version : Bool := true
  enable_auto_merge : Bool := true
  enable_claude_review : Bool := false
  enable_auto_release : Bool := true
  deriving DecidableEq

namespace GHCmd

/-- Instance state of `GitHubInitCommand.__init__`. -/
structure CmdState where
  options : GitHubInitOptions
  original_dir : DirPath
  created_files : List String
  created_dirs : List String
  github_repo_created : Bool
  deriving DecidableEq

/-- Full execution state of one standalone run. -/
structure St where
  world : World
  cs : CmdState
  deriving DecidableEq

def printLn (msg : String) : M St Unit := fun s =>
  (Except.ok (), { s with world := s.world.printOut msg })

def getSt : M St St := fun s => (Except.ok s, s)

/-- subprocess.run with check=True: record the spawn; raise
CalledProcessError (carrying the oracle stderr) on a non-zero exit. -/
def runChecked (c : Call) (ok : Bool) (stderr : String) : M St Unit := fun s =>
  if ok then (Except.ok (), { s with world := s.world.logCall c })
  else (Except.error (.calledProcessError "subprocess" stderr),
        { s with world := s.world.logCall c })

/-- subprocess.run without check: record the spawn only. -/
def runPlain (c : Call) : M St Unit := fun s =>
  (Except.ok (), { s with world := s.world.logCall c })

def chdirRel (name : String) : M St Unit := fun s =>
  (Except.ok (), { s with world := s.world.doChdir (s.world.resolve name) })

def chdirAbs (p : DirPath) : M St Unit := fun s =>
  (Except.ok (), { s with world := s.world.doChdir p })

/-- pathlib mkdir with parents=True, exist_ok=True. -/
def mkdirParentsOk (name : String) : M St Unit := fun s =>
  let segs := strSplit name '/'
  let w1 := addDirsAlong s.world s.world.cwd segs
  (Except.ok (), { s with world := { w1 with trace := w1.trace ++ [.mkdir (s.world.resolve name)] } })

def writeFile (name content : String) : M St Unit := fun s =>
  (Except.ok (), { s with world := s.world.doWrite name content })

def appendFile (name content : String) : M St Unit := fun s =>
  (Except.ok (), { s with world := s.world.doAppend name content })

def pathExistsRel (name : String) : M St Bool := fun s =>
  (Except.ok (s.world.pathExists (s.world.resolve name)), s)

def readFileRel (name : String) : M St (Option String) := fun s =>
  (Except.ok (s.world.readFile (s.world.resolve name)), s)

/-- shutil.rmtree on a cwd-relative name; raises OSError when the oracle
says deletion fails. -/
def rmtreeRel (name : String) (ok : Bool) : M St Unit := fun s =>
  if ok then (Except.ok (), { s with world := s.world.doRmtree (s.world.resolve name) })
  else (Except.error (.osError "rmtree failed"), s)

/-- self.github_repo_created = True. -/
def setRepoCreated : M St Unit := fun s =>
  (Except.ok (), { s with cs := { s.cs with github_repo_created := true } })

/-- gh repo create, check=True: on success the remote repository exists. -/
def ghCreateRemote (name visibility : String) (ok : Bool) (stderr : String) : M St Unit := fun s =>
  let w := s.world.logCall (.ghRepoCreate name visibility)
  if ok then (Except.ok (), { s with world := { w with remoteRepos := w.remoteRepos ++ [name] } })
  else (Except.error (.calledProcessError "gh repo create" stderr), { s with world := w })

/-- gh repo delete, check=True: on success the remote repository is gone. -/
def ghDeleteRemote (name : String) (ok : Bool) : M St Unit := fun s =>
  let w := s.world.logCall (.ghRepoDelete name)
  if ok then
    (Except.ok (), { s with world := { w with remoteRepos := w.remoteRepos.filter (fun r => r ≠ name) } })
  else (Except.error (.calledProcessError "gh repo delete" ""), { s with world := w })

end GHCmd

/-- Join strings with a separator (Python str.join). -/
def strJoin (sep : String) : List String → String
  | [] => ""
  | [x] => x
  | x :: rest => x ++ sep ++ strJoin sep rest

/-- Decimal digits of a natural number, most significant first
(fuel-indexed so the kernel can evaluate it). -/
def natDigits : Nat → Nat → List Char
  | 0, _ => []
  | fuel + 1, n =>
    let d := (['0', '1', '2', '3', '4', '5', '6', '7', '8', '9'].getD (n % 10) '0')
    if n < 10 then [d] else natDigits fuel (n / 10) ++ [d]

/-- Render a natural number in decimal (Python str(n) on the counts and
years that appear in output). -/
def natToStr (n : Nat) : String := String.mk (natDigits (n + 1) n)

example : natToStr 0 = "0" := by decide
example : natToStr 2025 = "2025" := by decide

/- Opaque template payloads.  The spec scopes these out ("treated as
opaque string payloads"), so each multi-line template of the source is
carried as a short stand-in string; no claim depends on their text. -/

def python_gitignore : String := "# Byte-compiled / optimized / DLL files"
def node_gitignore : String := "# Dependencies node_modules/"
def general_gitignore : String := "# OS files .DS_Store"
def rust_gitignore : String := "# Generated by Cargo /target/"
def go_gitignore : String := "# Binaries for programs and plugins"
def java_gitignore : String := "# Compiled class file"
def csharp_gitignore : String := "# Build results Debug/ Release/"

def python_ci_workflow : String := "name: CI (python)"
def node_ci_workflow : String := "name: CI (node)"
def generic_ci_workflow : String := "name: CI (generic)"
def docusaurus_ci_workflow : String := "name: CI (docusaurus)"
def rust_ci_workflow : String := "name: CI (rust)"
def go_ci_workflow : String := "name: CI (go)"
def java_ci_workflow : String := "name: CI (java)"
def csharp_ci_workflow : String := "name: CI (csharp)"

def docusaurus_deploy_workflow : String := "name: Deploy Docusaurus"
def pr_preview_workflow : String := "name: PR Preview"
def auto_version_workflow : String := "name: Auto Version"
def automerge_workflow : String := "name: Dependabot Auto-Merge"
def release_workflow : String := "name: Release"
def claude_review_workflow : String := "name: Claude Code Review"
def claude_workflow : String := "name: Claude"
def dependabot_config : String := "version: 2 updates: weekly"

def package_json_payload : String := "package.json payload"
def docusaurus_config_payload : String := "docusaurus.config.js payload"
def sidebars_payload : String := "sidebars.js payload"
def intro_md_payload : String := "# Tutorial Intro"
def custom_css_payload : String := "custom css payload"
def index_js_payload : String := "index.js payload"
def index_module_css_payload : String := "index.module.css payload"
def features_js_payload : String := "HomepageFeatures index.js payload"
def features_css_payload : String := "HomepageFeatures styles.module.css payload"
def docusaurus_gitignore : String := "# Dependencies /node_modules # Production /build"
def mit_license_body : String :=
  "Permission is hereby granted, free of charge, to any person obtaining a copy (MIT body payload)"


namespace GHCmd

/-- The files_to_create list assembled by `_execute_dry_run` (source lines
122-156); "[d]" and "[f]" stand in for the directory/file emoji markers. -/
def files_to_create (o : GitHubInitOptions) : List String :=
  ["  [d] " ++ o.repo_name ++ "/.git/ (git repository)"]
  ++ (if o.readme then ["  [f] " ++ o.repo_name ++ "/README.md"] else [])
  ++ (if optStrTruthy o.license then
        ["  [f] " ++ o.repo_name ++ "/LICENSE (" ++ o.license.getD "" ++ ")"] else [])
  ++ (if optStrTruthy o.gitignore then
        ["  [f] " ++ o.repo_name ++ "/.gitignore (" ++ o.gitignore.getD "" ++ " template)"] else [])
  ++ ["  [f] " ++ o.repo_name ++ "/.github/workflows/ci.yml"]
  ++ (if o.create_website then
        ["  [f] " ++ o.repo_name ++ "/package.json",
         "  [f] " ++ o.repo_name ++ "/docusaurus.config.js",
         "  [f] " ++ o.repo_name ++ "/sidebars.js",
         "  [d] " ++ o.repo_name ++ "/docs/",
         "  [f] " ++ o.repo_name ++ "/docs/intro.md",
         "  [f] " ++ o.repo_name ++ "/.github/workflows/deploy-docusaurus.yml",
         "  [f] " ++ o.repo_name ++ "/.github/workflows/pr-preview.yml"] else [])
  ++ (if o.enable_dependabot then
        ["  [f] " ++ o.repo_name ++ "/.github/dependabot.yml"] else [])

/-- The actions list printed by `_execute_dry_run` (source lines 161-176). -/
def dry_run_actions (o : GitHubInitOptions) : List String :=
  ["  1. Create local directory: " ++ o.repo_name ++ "/",
   "  2. Initialize git repository with branch: " ++ o.default_branch,
   "  3. Create "
     ++ natToStr ((files_to_create o).filter (fun f => strContains f "[f]")).length
     ++ " files",
   "  4. Create GitHub repository (" ++ (if o.private_ then "private" else "public") ++ ")"]
  ++ (if optListTruthy o.topics then
        ["  5. Add topics: " ++ strJoin ", " (o.topics.getD [])] else [])
  ++ ["  6. Configure git remote origin",
      "  7. Create initial commit with all files",
      "  8. Push to GitHub (" ++ o.default_branch ++ " branch)"]

/-- Everything `_execute_dry_run` prints, in order, as a pure projection of
the request (the Dry-Run Projector). -/
def dryRunLines (o : GitHubInitOptions) : List String :=
  ["DRY RUN MODE - Preview of repository initialization",
   String.mk (List.replicate 60 '='),
   "Repository: " ++ o.repo_name,
   "Description: " ++ pyOrDefault o.description "None",
   "Visibility: " ++ (if o.private_ then "Private" else "Public"),
   "License: " ++ pyOrDefault o.license "None",
   "Gitignore: " ++ pyOrDefault o.gitignore "None",
   "README: " ++ (if o.readme then "Yes" else "No"),
   "Default branch: " ++ o.default_branch,
   "Topics: " ++ (if optListTruthy o.topics then strJoin ", " (o.topics.getD []) else "None"),
   "Website: " ++ (if o.create_website then "Yes" else "No"),
   "Dependabot: " ++ (if o.enable_dependabot then "Yes" else "No"),
   "GitHub Project: " ++ (if o.create_project then "Yes" else "No")
     ++ " (" ++ o.project_template ++ " template)",
   "Auto-versioning: " ++ (if o.enable_auto_version then "Yes" else "No"),
   "Auto-merge: " ++ (if o.enable_auto_merge then "Yes" else "No"),
   "Claude review: " ++ (if o.enable_claude_review then "Yes" else "No"),
   "Auto-release: " ++ (if o.enable_auto_release then "Yes" else "No"),
   "\nFiles that would be created:"]
  ++ files_to_create o
  ++ ["\nActions that would be performed:"]
  ++ dry_run_actions o
  ++ ["\n" ++ String.mk (List.replicate 60 '='),
      "This was a preview only. No files were created or modified.",
      "Remove --dry-run flag to actually create the repository."]

/-- GitHubInitCommand._execute_dry_run: print the projection, touch
nothing else. -/
def _execute_dry_run : M St Unit := do
  let s ← getSt
  (dryRunLines s.cs.options).forM printLn

/-- The git presence check of _validate_prerequisites (source lines
189-194): a failing git --version raises RuntimeError. -/
def git_check (env : Env) : M St Unit :=
  attempt
    (do runChecked .gitVersion env.gitVersionOk ""
        printLn ("Git is available: " ++ strStrip env.gitVersionOut))
    (fun e => match e with
      | .calledProcessError _ _ =>
          throwErr (.runtimeError "Git is not installed or not available in PATH. Please install Git first.")
      | e1 => throwErr e1)

/-- The gh CLI presence check of _validate_prerequisites (source lines
196-202). -/
def gh_cli_check (env : Env) : M St Unit :=
  attempt
    (do runChecked .ghVersion env.ghVersionOk ""
        printLn ("GitHub CLI is available: " ++ (strSplit env.ghVersionOut '\n').headD ""))
    (fun e => match e with
      | .calledProcessError _ _ =>
          throwErr (.runtimeError "GitHub CLI (gh) is not installed. Please install it from https://cli.github.com/")
      | e1 => throwErr e1)

/-- The gh authentication check of _validate_prerequisites (source lines
204-213): a non-zero exit raises either way, with the message chosen by
a substring test on the lowered stderr. -/
def auth_check (env : Env) : M St Unit :=
  attempt
    (do runChecked .ghAuthStatus env.ghAuthOk env.ghAuthStderr
        printLn "GitHub CLI is authenticated")
    (fun e => match e with
      | .calledProcessError _ stderr =>
          if strContains (strLower stderr) "not logged into"
              || strContains (strLower stderr) "not authenticated" then
            throwErr (.runtimeError "GitHub CLI is not authenticated. Please run gh auth login first.")
          else
            throwErr (.runtimeError ("GitHub CLI authentication check failed: " ++ stderr))
      | e1 => throwErr e1)

/-- The GitHub API access check of _validate_prerequisites (source lines
215-225). -/
def api_check (env : Env) : M St Unit :=
  attempt
    (do runChecked .ghApiUser env.ghApiUserOk ""
        printLn "GitHub API access confirmed")
    (fun e => match e with
      | .calledProcessError _ _ =>
          throwErr (.runtimeError "Cannot access GitHub API. Check your authentication and permissions.")
      | e1 => throwErr e1)

/-- The project-scope access check of _validate_prerequisites (source
lines 228-244): a failing gh project list prints warnings - scope-themed
or generic - and never raises. -/
def project_access_check (env : Env) : M St Unit :=
  attempt
    (do runChecked .ghProjectList env.ghProjectListOk env.ghProjectListStderr
        printLn "GitHub Projects access confirmed")
    (fun e => match e with
      | .calledProcessError _ stderr =>
          if strContains (strLower stderr) "insufficient"
              || strContains (strLower stderr) "scope" then do
            printLn "WARN: GitHub CLI lacks project permissions"
            printLn "WARN: Run gh auth refresh --scopes project to add project access"
            printLn "WARN: Project creation will be skipped"
          else
            printLn "WARN: Project access check failed - project creation may not work"
      | e1 => throwErr e1)

/-- The parsed Node.js major version: int(version.lstrip("v").split(".")[0])
on the stripped node --version output. -/
def nodeMajorOf (env : Env) : Option Int :=
  pyToInt ((strSplit (strLstrip (strStrip env.nodeVersionOut) 'v') '.').headD "")

/-- The Node.js runtime check of _validate_prerequisites (source lines
246-258): a missing node or a parsed major version below 18 raises; an
unparseable version only warns. -/
def node_check (env : Env) : M St Unit :=
  attempt
    (do runChecked .nodeVersion env.nodeOk ""
        match nodeMajorOf env with
        | none => throwErr .valueError
        | some major =>
          if major < 18 then
            throwErr (.runtimeError ("Node.js version " ++ strStrip env.nodeVersionOut
              ++ " is too old. Docusaurus requires Node.js 18+"))
          else
            printLn ("Node.js is available: " ++ strStrip env.nodeVersionOut))
    (fun e => match e with
      | .calledProcessError _ _ =>
          throwErr (.runtimeError "Node.js is not installed. Required for --create-website option.")
      | .valueError =>
          printLn "WARN: Could not parse Node.js version, but it seems to be installed"
      | e1 => throwErr e1)

/-- GitHubInitCommand._validate_prerequisites (source lines 185-258).
FileNotFoundError for a missing binary is merged into the non-zero-exit
case: both are modelled as `calledProcessError` and the source handles
them in the same except clause. -/
def validate_core (env : Env) (o : GitHubInitOptions) : M St Unit := do
  printLn "Validating prerequisites..."
  git_check env
  gh_cli_check env
  auth_check env
  api_check env
  (if o.create_project then project_access_check env else pure ())
  if o.create_website then node_check env

/-- Entry point of the validator: reads the options off the instance and
runs the check sequence. -/
def _validate_prerequisites (env : Env) : M St Unit := do
  let s ← getSt
  validate_core env s.cs.options

/-- GitHubInitCommand._rollback_changes (source lines 260-288).  Note that
it does not change the working directory: deletions run from wherever the
failure left the process. -/
def _rollback_changes (env : Env) : M St Unit := do
  let s ← getSt
  let o := s.cs.options
  attempt
    (do
      (if s.cs.github_repo_created then
        attempt
          (do printLn ("Deleting GitHub repository: " ++ o.repo_name)
              ghDeleteRemote o.repo_name env.ghRepoDeleteOk
              printLn "GitHub repository deleted")
          (fun e => match e with
            | .calledProcessError _ _ =>
                printLn ("WARN: Could not delete GitHub repository: " ++ e.msg)
            | e1 => throwErr e1)
       else pure ())
      let ex ← pathExistsRel o.repo_name
      if ex then
        attempt
          (do printLn ("Deleting local directory: " ++ o.repo_name)
              rmtreeRel o.repo_name env.rmtreeOk
              printLn "Local directory deleted")
          (fun e => printLn ("WARN: Could not delete local directory: " ++ e.msg)))
    (fun e => printLn ("WARN: Error during rollback: " ++ e.msg))

/-- GitHubInitCommand._init_git_repo (source lines 290-301): mkdir with
parents=True and exist_ok=True, chdir into the directory, git init. -/
def _init_git_repo (env : Env) : M St Unit := do
  let s ← getSt
  let o := s.cs.options
  printLn "Initializing local git repository..."
  mkdirParentsOk o.repo_name
  chdirRel o.repo_name
  runChecked (.gitInit o.default_branch) env.gitInitOk ""

/-- GitHubInitCommand._create_readme. -/
def _create_readme : M St Unit := do
  let s ← getSt
  let o := s.cs.options
  let readme_content :=
    "# " ++ o.repo_name ++ "\n\n"
    ++ pyOrDefault o.description "A new GitHub repository"
    ++ "\n\n## Getting Started\n\nThis repository was initialized using the Claude GitHub Init command.\n\n## Installation\n\n```bash\n# Clone the repository\ngit clone https://github.com/YOUR_USERNAME/"
    ++ o.repo_name ++ ".git\n\n# Navigate to the project directory\ncd "
    ++ o.repo_name ++ "\n```\n\n## License\n\n"
    ++ (if optStrTruthy o.license then
          "This project is licensed under the " ++ o.license.getD "" ++ " License."
        else "This project is not yet licensed.")
    ++ "\n"
  writeFile "README.md" readme_content

/-- The gitignore template table of `_create_gitignore` (its seven keys). -/
def gitignore_templates : List (String × String) :=
  [("python", python_gitignore), ("node", node_gitignore), ("general", general_gitignore),
   ("rust", rust_gitignore), ("go", go_gitignore), ("java", java_gitignore),
   ("csharp", csharp_gitignore)]

/-- Python dict.get with a default. -/
def templatesGet (key dflt : String) : String :=
  ((gitignore_templates.find? (fun e => e.fst == key)).map Prod.snd).getD dflt

/-- The template selection of `_create_gitignore` (source lines 660-662):
`gitignore_templates.get(self.options.gitignore or "general",
gitignore_templates["general"])`. -/
def selectGitignoreTemplate (g : Option String) : String :=
  templatesGet (pyOrDefault g "general") general_gitignore

/-- GitHubInitCommand._create_gitignore (source lines 344-665). -/
def _create_gitignore : M St Unit := do
  let s ← getSt
  writeFile ".gitignore" (selectGitignoreTemplate s.cs.options.gitignore)

/-- GitHubInitCommand._create_license (source lines 1685-1713): writes a
LICENSE only when the identifier upper-cases to MIT; otherwise does
nothing and raises nothing. -/
def _create_license (env : Env) : M St Unit := do
  let s ← getSt
  let o := s.cs.options
  if optStrTruthy o.license && strUpper (o.license.getD "") == "MIT" then
    writeFile "LICENSE"
      ("MIT License\n\nCopyright (c) " ++ natToStr env.year ++ " [Your Name]\n\n"
        ++ mit_license_body)
  else
    pure ()

/-- GitHubInitCommand._create_initial_files (source lines 303-314). -/
def _create_initial_files (env : Env) : M St Unit := do
  let s ← getSt
  let o := s.cs.options
  printLn "Creating initial files..."
  (if o.readme then _create_readme else pure ())
  (if optStrTruthy o.gitignore then _create_gitignore else pure ())
  if optStrTruthy o.license then _create_license env

/-- GitHubInitCommand._create_ci_workflow (source lines 700-721). -/
def _create_ci_workflow : M St Unit := do
  let s ← getSt
  let o := s.cs.options
  let ci_content :=
    if o.create_website then docusaurus_ci_workflow
    else if o.gitignore == some "python" then python_ci_workflow
    else if o.gitignore == some "node" then node_ci_workflow
    else if o.gitignore == some "rust" then rust_ci_workflow
    else if o.gitignore == some "go" then go_ci_workflow
    else if o.gitignore == some "java" then java_ci_workflow
    else if o.gitignore == some "csharp" then csharp_ci_workflow
    else generic_ci_workflow
  writeFile ".github/workflows/ci.yml" ci_content

def _create_docusaurus_deploy_workflow : M St Unit :=
  writeFile ".github/workflows/deploy-docusaurus.yml" docusaurus_deploy_workflow

def _create_pr_preview_workflow : M St Unit :=
  writeFile ".github/workflows/pr-preview.yml" pr_preview_workflow

def _create_auto_version_workflow : M St Unit :=
  writeFile ".github/workflows/auto-version.yml" auto_version_workflow

def _create_automerge_workflow : M St Unit :=
  writeFile ".github/workflows/automerge.yml" automerge_workflow

def _create_release_workflow : M St Unit :=
  writeFile ".github/workflows/release.yml" release_workflow

def _create_claude_review_workflows : M St Unit := do
  writeFile ".github/workflows/claude-code-review.yml" claude_review_workflow
  writeFile ".github/workflows/claude.yml" claude_workflow

/-- GitHubInitCommand._create_dependabot_config (source lines 1607-1683). -/
def _create_dependabot_config : M St Unit := do
  mkdirParentsOk ".github"
  writeFile ".github/dependabot.yml" dependabot_config

/-- GitHubInitCommand._create_github_workflows (source lines 667-698). -/
def _create_github_workflows : M St Unit := do
  let s ← getSt
  let o := s.cs.options
  printLn "Creating GitHub Actions workflows..."
  mkdirParentsOk ".github/workflows"
  _create_ci_workflow
  (if o.create_website then do
    _create_docusaurus_deploy_workflow
    _create_pr_preview_workflow
   else pure ())
  (if o.enable_auto_version then _create_auto_version_workflow else pure ())
  (if o.enable_auto_merge then _create_automerge_workflow else pure ())
  (if o.enable_auto_release then _create_release_workflow else pure ())
  (if o.enable_claude_review then _create_claude_review_workflows else pure ())
  if o.enable_dependabot then _create_dependabot_config

/-- GitHubInitCommand._initialize_docusaurus (source lines 1715-2265),
written here as `_init_docusaurus`: a try block of scaffold writes whose
except clause logs and re-raises, so any failure here is fatal. -/
def _init_docusaurus : M St Unit := do
  printLn "Initializing Docusaurus website..."
  attempt
    (do
      let pkgExists ← pathExistsRel "package.json"
      (if !pkgExists then writeFile "package.json" package_json_payload else pure ())
      writeFile "docusaurus.config.js" docusaurus_config_payload
      writeFile "sidebars.js" sidebars_payload
      mkdirParentsOk "docs"
      writeFile "docs/intro.md" intro_md_payload
      mkdirParentsOk "src"
      mkdirParentsOk "src/css"
      writeFile "src/css/custom.css" custom_css_payload
      mkdirParentsOk "src/pages"
      writeFile "src/pages/index.js" index_js_payload
      writeFile "src/pages/index.module.css" index_module_css_payload
      mkdirParentsOk "src/components"
      mkdirParentsOk "src/components/HomepageFeatures"
      writeFile "src/components/HomepageFeatures/index.js" features_js_payload
      writeFile "src/components/HomepageFeatures/styles.module.css" features_css_payload
      mkdirParentsOk "static"
      mkdirParentsOk "static/img"
      let gi ← pathExistsRel ".gitignore"
      let existing_gitignore ←
        (if gi then do
          let c ← readFileRel ".gitignore"
          pure (c.getD "")
         else pure "")
      (if !strContains existing_gitignore "node_modules" then
        appendFile ".gitignore" ("\n# Docusaurus\n" ++ docusaurus_gitignore)
       else pure ())
      printLn "Docusaurus initialized successfully!"
      printLn "Remember to:"
      printLn "   1. Replace username placeholders in docusaurus.config.js"
      printLn "   2. Run npm install to install dependencies"
      printLn "   3. Run npm start to preview the site locally")
    (fun e => do
      printLn ("WARN: Error initializing Docusaurus: " ++ e.msg)
      throwErr e)

/-- GitHubInitCommand._create_github_repo (source lines 2267-2294): the
whole creation/remote-wiring sequence sits in one try whose
CalledProcessError handler only prints warnings. -/
def _create_github_repo (env : Env) : M St Unit := do
  let s ← getSt
  let o := s.cs.options
  printLn "Creating GitHub repository..."
  let visibility := if !o.private_ then "--public" else "--private"
  attempt
    (do
      ghCreateRemote o.repo_name visibility env.ghRepoCreateOk env.ghRepoCreateStderr
      setRepoCreated
      runChecked .ghApiUserLogin env.ghUserLoginOk ""
      let username := strStrip env.login
      let remote_url := "https://github.com/" ++ username ++ "/" ++ o.repo_name ++ ".git"
      runChecked (.gitRemoteAdd remote_url) env.gitRemoteAddOk ""
      printLn ("Repository created and remote configured: " ++ remote_url))
    (fun e => match e with
      | .calledProcessError _ _ => do
          printLn ("WARN: Could not create remote repository or set up remote: " ++ e.msg)
          printLn "You may need to set up the remote manually."
      | e1 => throwErr e1)

/-- GitHubInitCommand._configure_repo (source lines 2296-2308). -/
def _configure_repo (env : Env) : M St Unit := do
  let s ← getSt
  let o := s.cs.options
  printLn "Configuring repository..."
  if optListTruthy o.topics then
    attempt
      (do (o.topics.getD []).forM (fun topic => runChecked (.ghTopicAdd topic) env.ghTopicAddOk "")
          printLn ("Added topics: " ++ strJoin ", " (o.topics.getD [])))
      (fun e => match e with
        | .calledProcessError _ _ =>
            printLn ("WARN: Could not add topics to repository: " ++ e.msg)
        | e1 => throwErr e1)

/-- GitHubInitCommand._add_project_field (source lines 2365-2379): any
CalledProcessError is swallowed. -/
def _add_project_field (env : Env) (field_name field_type : String) : M St Unit :=
  attempt (runChecked (.ghFieldCreate field_name field_type) env.ghFieldCreateOk "")
    (fun e => match e with
      | .calledProcessError _ _ => pure ()
      | e1 => throwErr e1)

/-- GitHubInitCommand._configure_project_template (source lines 2340-2363). -/
def _configure_project_template (env : Env) : M St Unit := do
  let s ← getSt
  let o := s.cs.options
  attempt
    (do
      (if o.project_template == "basic" then
        _add_project_field env "Status" "single_select"
       else if o.project_template == "development" then do
        _add_project_field env "Status" "single_select"
        _add_project_field env "Priority" "single_select"
        _add_project_field env "Sprint" "iteration"
       else if o.project_template == "release" then do
        _add_project_field env "Status" "single_select"
        _add_project_field env "Priority" "single_select"
        _add_project_field env "Target Date" "date"
        _add_project_field env "Milestone" "single_select"
       else pure ())
      printLn ("Project configured with " ++ o.project_template ++ " template"))
    (fun e => match e with
      | .calledProcessError _ _ =>
          printLn "WARN: Could not configure project template - using default configuration"
      | e1 => throwErr e1)

/-- GitHubInitCommand._create_github_project (source lines 2310-2338). -/
def _create_github_project (env : Env) : M St Unit := do
  let s ← getSt
  let o := s.cs.options
  printLn "Creating GitHub project..."
  attempt
    (do
      runChecked (.ghProjectCreate o.repo_name) env.ghProjectCreateOk env.ghProjectCreateStderr
      printLn ("Repository-level GitHub project created: " ++ strStrip env.ghProjectCreateOut)
      _configure_project_template env)
    (fun e => match e with
      | .calledProcessError _ stderr =>
          if strContains (strLower stderr) "insufficient"
              || strContains (strLower stderr) "scope" then do
            printLn "WARN: GitHub CLI lacks project permissions. Run gh auth refresh --scopes project to add project access."
            printLn "WARN: Project creation skipped - repository created successfully without project board."
          else do
            printLn ("WARN: Could not create GitHub project: " ++ stderr)
            printLn "WARN: Project creation skipped - repository created successfully without project board."
      | e1 => throwErr e1)

/-- GitHubInitCommand._commit_and_push (source lines 2381-2395): add and
commit are check=True and fatal, the push failure is only a warning. -/
def _commit_and_push (env : Env) : M St Unit := do
  let s ← getSt
  let o := s.cs.options
  printLn "Creating initial commit and pushing..."
  runChecked .gitAdd env.gitAddOk ""
  runChecked .gitCommit env.gitCommitOk ""
  attempt (runChecked (.gitPush o.default_branch) env.gitPushOk "")
    (fun e => match e with
      | .calledProcessError _ _ =>
          printLn "WARN: Could not push to remote. You may need to set up the remote manually."
      | e1 => throwErr e1)

/-- The step sequence inside the try of GitHubInitCommand.execute
(source lines 63-92). -/
def execute_steps (env : Env) : M St Unit := do
  let s ← getSt
  let o := s.cs.options
  printLn ("Initializing GitHub repository: " ++ o.repo_name)
  _init_git_repo env
  _create_initial_files env
  _create_github_workflows
  (if o.create_website then _init_docusaurus else pure ())
  _create_github_repo env
  (if o.create_project then _create_github_project env else pure ())
  _configure_repo env
  _commit_and_push env
  printLn ("Successfully initialized repository: " ++ o.repo_name)

/-- The try/except of execute: on any exception print, roll back, and
re-raise (source lines 93-97). -/
def execute_guarded (env : Env) : M St Unit :=
  attempt (execute_steps env)
    (fun e => do
      printLn ("ERROR initializing repository: " ++ e.msg)
      printLn "Rolling back changes..."
      _rollback_changes env
      throwErr e)

/-- GitHubInitCommand.execute (source lines 54-99): dry-run short-circuit,
prerequisite validation outside the try, the guarded step sequence, and a
finally that chdirs back to the saved original directory. -/
def execute (env : Env) : M St Unit := do
  let s ← getSt
  if s.cs.options.dry_run then
    _execute_dry_run
  else do
    _validate_prerequisites env
    withFinally (execute_guarded env)
      (do
        let s2 ← getSt
        chdirAbs s2.cs.original_dir)

/-- GitHubInitCommand.__init__: capture the options and the current
working directory; lists empty, remote-created flag false. -/
def mkSt (options : GitHubInitOptions) (w : World) : St :=
  { world := w,
    cs := { options := options, original_dir := w.cwd, created_files := [],
            created_dirs := [], github_repo_created := false } }

/-- Construct the command on a world and execute it. -/
def runExecute (env : Env) (options : GitHubInitOptions) (w : World) :
    Except PyErr Unit × St :=
  execute env (mkSt options w)

end GHCmd


namespace GHPkg

/-- Options of the packaged `GitHubInitialization` (the dataclass of
src/claude_slash/commands/github_init.py); it adds
`enable_branch_protection` to the standalone option set. -/
structure GitHubInitOptions where
  repo_name : String
  description : Option String := none
  private_ : Bool := true
  license : Option String := none
  gitignore : Option String := none
  readme : Bool := true
  default_branch : String := "main"
  topics : Option (List String) := none
  create_website : Bool := false
  enable_dependabot : Bool := true
  dry_run : Bool := false
  create_project : Bool := true
  project_template : String := "development"
  enable_auto_version : Bool := true
  enable_auto_merge : Bool := true
  enable_claude_review : Bool := false
  enable_auto_release : Bool := true
  enable_branch_protection : Bool := true
  deriving DecidableEq

/-- Instance state of GitHubInitialization.__init__ (no remote-created
flag and no created-dirs list exist in this variant). -/
structure CsState where
  options : GitHubInitOptions
  original_dir : DirPath
  created_files : List String
  deriving DecidableEq

/-- Full execution state of one packaged run. -/
structure St where
  world : World
  cs : CsState
  deriving DecidableEq

def printLn (msg : String) : M St Unit := fun s =>
  (Except.ok (), { s with world := s.world.printOut msg })

def getSt : M St St := fun s => (Except.ok s, s)

/-- subprocess.run with check=True. -/
def runChecked (c : Call) (ok : Bool) (stderr : String) : M St Unit := fun s =>
  if ok then (Except.ok (), { s with world := s.world.logCall c })
  else (Except.error (.calledProcessError "subprocess" stderr),
        { s with world := s.world.logCall c })

/-- subprocess.run with capture_output and no check: never raises. -/
def runPlain (c : Call) : M St Unit := fun s =>
  (Except.ok (), { s with world := s.world.logCall c })

def chdirRel (name : String) : M St Unit := fun s =>
  (Except.ok (), { s with world := s.world.doChdir (s.world.resolve name) })

def chdirAbs (p : DirPath) : M St Unit := fun s =>
  (Except.ok (), { s with world := s.world.doChdir p })

/-- os.makedirs with default exist_ok=False: raises FileExistsError when
the target already exists. -/
def makedirs (name : String) : M St Unit := fun s =>
  let p := s.world.resolve name
  if s.world.pathExists p then (Except.error (.fileExistsError name), s)
  else
    let w1 := addDirsAlong s.world s.world.cwd (strSplit name '/')
    (Except.ok (), { s with world := { w1 with trace := w1.trace ++ [.mkdir p] } })

/-- pathlib mkdir with parents=True / exist_ok=True (workflows dir etc.). -/
def mkdirParentsOk (name : String) : M St Unit := fun s =>
  let segs := strSplit name '/'
  let w1 := addDirsAlong s.world s.world.cwd segs
  (Except.ok (), { s with world := { w1 with trace := w1.trace ++ [.mkdir (s.world.resolve name)] } })

def writeFile (name content : String) : M St Unit := fun s =>
  (Except.ok (), { s with world := s.world.doWrite name content })

/-- self.created_files.append(name). -/
def addCreated (name : String) : M St Unit := fun s =>
  (Except.ok (), { s with cs := { s.cs with created_files := s.cs.created_files ++ [name] } })

def pathExistsRel (name : String) : M St Bool := fun s =>
  (Except.ok (s.world.pathExists (s.world.resolve name)), s)

def rmtreeRel (name : String) (ok : Bool) : M St Unit := fun s =>
  if ok then (Except.ok (), { s with world := s.world.doRmtree (s.world.resolve name) })
  else (Except.error (.osError "rmtree failed"), s)

/-- gh repo create with check=True: raises on failure, and on success the
remote repository exists. -/
def ghCreateRemote (name visibility : String) (ok : Bool) (stderr : String) : M St Unit := fun s =>
  let w := s.world.logCall (.ghRepoCreate name visibility)
  if ok then (Except.ok (), { s with world := { w with remoteRepos := w.remoteRepos ++ [name] } })
  else (Except.error (.calledProcessError "gh repo create" stderr), { s with world := w })

/-- gh repo delete OWNER/REPO with capture_output and no check: records
the call, removes the repository when the oracle says the call succeeds,
and never raises.  `target` is the OWNER/REPO argument, `bare` the plain
repository name the create call registered. -/
def ghDeleteRemotePlain (target bare : String) (ok : Bool) : M St Unit := fun s =>
  let w := s.world.logCall (.ghRepoDelete target)
  if ok then
    (Except.ok (), { s with world := { w with remoteRepos := w.remoteRepos.filter (fun r => r ≠ bare) } })
  else (Except.ok (), { s with world := w })

/-- GitHubInitialization._validate_prerequisites (source lines 111-127):
gh auth status, git version, then the local-directory existence check,
each a hard RuntimeError. -/
def _validate_prerequisites (env : Env) : M St Unit := do
  let s ← getSt
  runPlain .ghAuthStatus
  if !env.ghAuthOk then
    throwErr (.runtimeError "GitHub CLI (gh) is not installed or not authenticated")
  runPlain .gitVersion
  if !env.gitVersionOk then
    throwErr (.runtimeError "Git is not installed")
  let ex ← pathExistsRel s.cs.options.repo_name
  if ex then
    throwErr (.runtimeError ("Directory " ++ s.cs.options.repo_name ++ " already exists"))

/-- GitHubInitialization._get_github_user (source lines 129-137): parses
the login from gh api user output, "unknown" on a non-zero exit (the JSON
decoding is abstracted into the oracle login field). -/
def _get_github_user (env : Env) : M St String := do
  runPlain .ghApiUser
  if env.ghApiUserOk then pure env.login else pure "unknown"

/-- GitHubInitialization._init_git_repo (source lines 139-146):
os.makedirs (no exist_ok), chdir, git init, git branch -M. -/
def _init_git_repo (env : Env) : M St Unit := do
  let s ← getSt
  let o := s.cs.options
  makedirs o.repo_name
  chdirRel o.repo_name
  runChecked (.gitInit "") env.gitInitOk ""
  runChecked (.gitBranchMove o.default_branch) env.gitBranchMoveOk ""

/-- GitHubInitialization._create_readme. -/
def _create_readme : M St Unit := do
  let s ← getSt
  let o := s.cs.options
  let content :=
    "# " ++ o.repo_name ++ "\n\n" ++ pyOrDefault o.description ""
    ++ "\n\n## Getting Started\n\nAdd instructions for getting started with your project here.\n\n## Contributing\n\nContributions are welcome! Please read our contributing guidelines.\n\n## License\n\n"
    ++ pyOrDefault o.license "See LICENSE file for details." ++ "\n"
  writeFile "README.md" content
  addCreated "README.md"

def basic_gitignore : String := "# Byte-compiled / optimized / DLL files (fallback payload)"

/-- GitHubInitialization._create_gitignore (source lines 181-263): asks
the gh API for the template; writes only when that call exits zero (a
non-zero exit writes nothing, since no exception reaches the fallback
except-clause, which is kept for fidelity). -/
def _create_gitignore (env : Env) : M St Unit := do
  let s ← getSt
  attempt
    (do
      runPlain (.ghGitignoreTemplate (s.cs.options.gitignore.getD ""))
      if env.ghGitignoreApiOk then do
        writeFile ".gitignore" env.ghGitignoreSource
        addCreated ".gitignore")
    (fun _ => do
      writeFile ".gitignore" basic_gitignore
      addCreated ".gitignore")

/-- GitHubInitialization._create_license (source lines 265-293): always a
placeholder MIT text, whatever the identifier. -/
def _create_license (env : Env) : M St Unit := do
  let user ← _get_github_user env
  writeFile "LICENSE" ("MIT License\n\nCopyright (c) 2025 " ++ user ++ "\n\n" ++ mit_license_body)
  addCreated "LICENSE"

/-- GitHubInitialization._create_initial_files (source lines 148-157). -/
def _create_initial_files (env : Env) : M St Unit := do
  let s ← getSt
  let o := s.cs.options
  if o.readme then _create_readme
  if optStrTruthy o.gitignore then _create_gitignore env
  if optStrTruthy o.license then _create_license env

def pkg_ci_workflow : String := "name: CI (packaged payload)"

/-- GitHubInitialization._create_github_workflows (source lines 295-334). -/
def _create_github_workflows : M St Unit := do
  mkdirParentsOk ".github/workflows"
  writeFile ".github/workflows/ci.yml" pkg_ci_workflow
  addCreated ".github/workflows/ci.yml"

/-- GitHubInitialization._initialize_docusaurus (source lines 336-352),
written here as `_init_docusaurus`. -/
def _init_docusaurus : M St Unit := do
  let s ← getSt
  let o := s.cs.options
  printLn "Setting up Docusaurus documentation site..."
  mkdirParentsOk "docs"
  writeFile "docs/index.md" ("# " ++ o.repo_name ++ " Documentation payload")
  addCreated "docs/index.md"

/-- GitHubInitialization._create_github_repo (source lines 354-364):
check=True and no try around it, so a failure propagates to execute. -/
def _create_github_repo (env : Env) : M St Unit := do
  let s ← getSt
  let o := s.cs.options
  let visibility := if o.private_ then "private" else "public"
  ghCreateRemote o.repo_name ("--" ++ visibility) env.ghRepoCreateOk env.ghRepoCreateStderr

/-- GitHubInitialization._create_github_project (source lines 366-374):
check=True, so a failure propagates. -/
def _create_github_project (env : Env) : M St Unit := do
  let s ← getSt
  printLn "Creating GitHub project..."
  runChecked (.ghProjectCreate s.cs.options.repo_name) env.ghProjectCreateOk env.ghProjectCreateStderr

def pkg_dependabot_config : String := "version: 2 updates: pip github-actions weekly"

/-- GitHubInitialization._setup_dependabot (source lines 376-399). -/
def _setup_dependabot : M St Unit := do
  mkdirParentsOk ".github"
  writeFile ".github/dependabot.yml" pkg_dependabot_config
  addCreated ".github/dependabot.yml"

/-- GitHubInitialization._setup_branch_protection (source lines 401-429):
capture_output without check, success or warning prints only. -/
def _setup_branch_protection (env : Env) : M St Unit := do
  let s ← getSt
  let o := s.cs.options
  printLn "Setting up branch protection rules..."
  let user ← _get_github_user env
  attempt
    (do
      runPlain (.ghBranchProtect (user ++ "/" ++ o.repo_name) o.default_branch)
      if env.ghBranchProtectOk then
        printLn "Branch protection rules configured successfully"
      else
        printLn "WARN: Could not set up branch protection")
    (fun _ => printLn "WARN: Failed to setup branch protection")

/-- GitHubInitialization._configure_automation (source lines 431-440):
prints only. -/
def _configure_automation : M St Unit := do
  let s ← getSt
  let o := s.cs.options
  if o.enable_auto_version then printLn "Configuring automatic versioning..."
  if o.enable_auto_merge then printLn "Configuring auto-merge for dependabot..."
  if o.enable_auto_release then printLn "Configuring automatic releases..."

/-- GitHubInitialization._initial_commit_and_push (source lines 442-453):
add, commit, remote add and push are all check=True, hence all fatal. -/
def _initial_commit_and_push (env : Env) : M St Unit := do
  let s ← getSt
  let o := s.cs.options
  runChecked .gitAdd env.gitAddOk ""
  runChecked .gitCommit env.gitCommitOk ""
  let user ← _get_github_user env
  runChecked (.gitRemoteAdd ("git@github.com:" ++ user ++ "/" ++ o.repo_name ++ ".git"))
    env.gitRemoteAddOk ""
  runChecked (.gitPush o.default_branch) env.gitPushOk ""

/-- GitHubInitialization._execute_dry_run (source lines 455-471). -/
def _execute_dry_run : M St Unit := do
  let s ← getSt
  let o := s.cs.options
  printLn "DRY RUN MODE - Preview of what would be created:"
  printLn ("Repository name: " ++ o.repo_name)
  printLn ("Visibility: " ++ (if o.private_ then "private" else "public"))
  if optStrTruthy o.description then printLn ("Description: " ++ o.description.getD "")
  printLn ("README: " ++ (if o.readme then "yes" else "no"))
  if optStrTruthy o.gitignore then printLn (".gitignore: " ++ o.gitignore.getD "")
  if optStrTruthy o.license then printLn ("License: " ++ o.license.getD "")
  printLn ("Website: " ++ (if o.create_website then "yes" else "no"))
  printLn ("Project board: " ++ (if o.create_project then "yes" else "no"))
  printLn ("Dependabot: " ++ (if o.enable_dependabot then "yes" else "no"))
  printLn ("Branch protection: " ++ (if o.enable_branch_protection then "yes" else "no"))
  printLn "GitHub Actions workflows: CI/CD"

/-- GitHubInitialization._rollback (source lines 473-495): restore the
original working directory first, then best-effort remote deletion, then
local directory deletion. -/
def _rollback (env : Env) : M St Unit := do
  let s ← getSt
  let o := s.cs.options
  attempt
    (do
      printLn "Rolling back changes..."
      chdirAbs s.cs.original_dir
      attempt
        (do
          let user ← _get_github_user env
          ghDeleteRemotePlain (user ++ "/" ++ o.repo_name) o.repo_name env.ghRepoDeleteOk)
        (fun _ => pure ())
      let ex ← pathExistsRel o.repo_name
      if ex then rmtreeRel o.repo_name env.rmtreeOk)
    (fun e => printLn ("WARN: Error during rollback: " ++ e.msg))

/-- GitHubInitialization.execute (source lines 56-109): dry-run
short-circuit, validation outside the try, then the step sequence inside
a try whose handler prints, rolls back and re-raises.  There is no
finally clause in this variant. -/
def execute (env : Env) : M St Unit := do
  let s ← getSt
  let o := s.cs.options
  if o.dry_run then
    _execute_dry_run
  else do
    _validate_prerequisites env
    attempt
      (do
        printLn ("Initializing GitHub repository: " ++ o.repo_name)
        _init_git_repo env
        _create_initial_files env
        _create_github_workflows
        if o.create_website then _init_docusaurus
        _create_github_repo env
        if o.create_project then _create_github_project env
        if o.enable_dependabot then _setup_dependabot
        _configure_automation
        if o.enable_branch_protection then _setup_branch_protection env
        _initial_commit_and_push env
        printLn ("Repository " ++ o.repo_name ++ " initialized successfully!")
        let s2 ← getSt
        printLn ("Local directory: " ++ strJoin "/" s2.world.cwd)
        let user ← _get_github_user env
        printLn ("GitHub URL: https://github.com/" ++ user ++ "/" ++ o.repo_name))
      (fun e => do
        printLn ("ERROR during initialization: " ++ e.msg)
        _rollback env
        throwErr e)

/-- GitHubInitialization.__init__. -/
def mkSt (options : GitHubInitOptions) (w : World) : St :=
  { world := w, cs := { options := options, original_dir := w.cwd, created_files := [] } }

/-- Construct and execute on a world. -/
def runExecute (env : Env) (options : GitHubInitOptions) (w : World) :
    Except PyErr Unit × St :=
  execute env (mkSt options w)

end GHPkg

/-- Result of argparse for the /github-init flags (parse_arguments, source
lines 2744-2839), with the argparse defaults. -/
structure Parsed where
  repo_name : String
  description : Option String := none
  public : Bool := false
  license : Option String := none
  gitignore : Option String := none
  readme : Bool := true
  default_branch : String := "main"
  topics : Option String := none
  create_website : Bool := false
  no_dependabot : Bool := false
  dry_run : Bool := false
  no_project : Bool := false
  project_template : String := "development"
  no_auto_version : Bool := false
  no_auto_merge : Bool := false
  enable_claude_review : Bool := false
  no_auto_release : Bool := false
  deriving DecidableEq

/-- The config mapping loaded from ~/.github-init.yaml after key
filtering (load_config_defaults): every recognized key is either absent
or carries a value. -/
structure Config where
  description : Option String := none
  private_ : Option Bool := none
  license : Option String := none
  gitignore : Option String := none
  readme : Option Bool := none
  default_branch : Option String := none
  topics : Option (List String) := none
  create_website : Option Bool := none
  enable_dependabot : Option Bool := none
  create_project : Option Bool := none
  project_template : Option String := none
  enable_auto_version : Option Bool := none
  enable_auto_merge : Option Bool := none
  enable_claude_review : Option Bool := none
  enable_auto_release : Option Bool := none
  deriving DecidableEq

/-- The GitHubInitOptions construction of parse_arguments (source lines
2848-2870), merging CLI values with config defaults using Python
truthiness exactly as written there.  In particular `readme` takes
`parsed.readme` unconditionally (the hasattr guard is always true), and
`default_branch` and `project_template` test the argparse value for
truthiness, which the argparse defaults "main"/"development" always
satisfy. -/
def mergeOptions (parsed : Parsed) (config : Config) : GitHubInitOptions :=
  { repo_name := parsed.repo_name,
    description := pyOrOpt parsed.description config.description,
    private_ := if parsed.public then !parsed.public else config.private_.getD true,
    license := pyOrOpt parsed.license config.license,
    gitignore := pyOrOpt parsed.gitignore config.gitignore,
    readme := parsed.readme,
    default_branch :=
      if parsed.default_branch = "" then config.default_branch.getD "main"
      else parsed.default_branch,
    topics :=
      match parsed.topics with
      | some t => if t = "" then config.topics else some (strSplit t ',')
      | none => config.topics,
    create_website := parsed.create_website || config.create_website.getD false,
    enable_dependabot :=
      if parsed.no_dependabot then !parsed.no_dependabot
      else config.enable_dependabot.getD true,
    dry_run := parsed.dry_run,
    create_project :=
      if parsed.no_project then !parsed.no_project else config.create_project.getD true,
    project_template :=
      if parsed.project_template = "" then config.project_template.getD "development"
      else parsed.project_template,
    enable_auto_version :=
      if parsed.no_auto_version then !parsed.no_auto_version
      else config.enable_auto_version.getD true,
    enable_auto_merge :=
      if parsed.no_auto_merge then !parsed.no_auto_merge
      else config.enable_auto_merge.getD true,
    enable_claude_review := parsed.enable_claude_review || config.enable_claude_review.getD false,
    enable_auto_release :=
      if parsed.no_auto_release then !parsed.no_auto_release
      else config.enable_auto_release.getD true }

/-! Concrete fixtures used by witnesses and counterexamples. -/

/-- A world whose working directory is /home, containing nothing else. -/
def homeWorld : World :=
  { cwd := ["home"], dirs := [["home"]], files := [], remoteRepos := [], output := [], trace := [] }

/-- A world in which the directory /home/taken already exists. -/
def takenWorld : World :=
  { cwd := ["home"], dirs := [["home"], ["home", "taken"]], files := [],
    remoteRepos := [], output := [], trace := [] }

/-- Standalone options with every optional artifact disabled, to keep
concrete runs small. -/
def minimalOpts (name : String) : GitHubInitOptions :=
  { repo_name := name, readme := false, enable_dependabot := false, create_project := false,
    enable_auto_version := false, enable_auto_merge := false, enable_auto_release := false }

/-- Packaged options with the same trimming. -/
def minimalOptsPkg (name : String) : GHPkg.GitHubInitOptions :=
  { repo_name := name, readme := false, enable_dependabot := false, create_project := false,
    enable_auto_version := false, enable_auto_merge := false, enable_auto_release := false,
    enable_branch_protection := false }

/-- A state as observed when `_rollback_changes` begins after a git init
failure: the created directory exists, the process is still chdir-ed into
it, and the remote-created flag is false. -/
def rollbackSt : GHCmd.St :=
  { world := { cwd := ["home", "demo"], dirs := [["home"], ["home", "demo"]], files := [],
               remoteRepos := [], output := [], trace := [] },
    cs := { options := minimalOpts "demo", original_dir := ["home"], created_files := [],
            created_dirs := [], github_repo_created := false } }

/-- A rollback-entry state in which the repository name does resolve from
the current working directory and the remote-created flag is set. -/
def rollbackStFlagged : GHCmd.St :=
  { world := { cwd := ["home"], dirs := [["home"], ["home", "demo"]], files := [],
               remoteRepos := ["demo"], output := [], trace := [] },
    cs := { options := minimalOpts "demo", original_dir := ["home"], created_files := [],
            created_dirs := [], github_repo_created := true } }

example : (GHCmd.runExecute {} (minimalOpts "demo") homeWorld).1 = Except.ok () := rfl

/-- C3: during a run whose git init fails after mkdir+chdir, the rollback
coordinator of the standalone implementation runs entirely inside the
created directory: it performs no chdir (the restore happens only in the
finally clause of execute, after rollback), and consequently the created
directory - which does exist - is never deleted.  This evaluates the code
at the failing input and contradicts the claim that the original working
directory is restored before any deletion is attempted. -/
theorem rollback_runs_before_cwd_restore :
    (GHCmd.runExecute { gitInitOk := false } (minimalOpts "demo") homeWorld).1 =
      Except.error (.calledProcessError "subprocess" "") ∧
    ["home", "demo"] ∈ (GHCmd.runExecute { gitInitOk := false } (minimalOpts "demo") homeWorld).2.world.dirs ∧
    (GHCmd._rollback_changes { gitInitOk := false } rollbackSt).2.world.cwd = ["home", "demo"] ∧
    (GHCmd._rollback_changes { gitInitOk := false } rollbackSt).2.world.trace = [] ∧
    rollbackSt.world.pathExists ["home", "demo"] = true := by
  exact ⟨rfl, by decide, rfl, rfl, by decide⟩

/-- C4: at the same failing input, the original exception is re-raised and
remote deletion is correctly gated on the (false) remote-created flag, but
the local directory - which exists - is not deleted: the existence check
resolves the repository name against the rollback-time working directory,
which is inside the created directory itself.  The last two conjuncts
show the deletions that do happen when the flag is set and the name
happens to resolve: remote deletion and rmtree are both attempted. -/
theorem rollback_deletion_gating_eval :
    (GHCmd.runExecute { gitInitOk := false } (minimalOpts "demo") homeWorld).1 =
      Except.error (.calledProcessError "subprocess" "") ∧
    Event.call (Call.ghRepoDelete "demo") ∉
      (GHCmd.runExecute { gitInitOk := false } (minimalOpts "demo") homeWorld).2.world.trace ∧
    (∀ p, Event.rmtree p ∉
      (GHCmd.runExecute { gitInitOk := false } (minimalOpts "demo") homeWorld).2.world.trace) ∧
    rollbackSt.world.pathExists ["home", "demo"] = true ∧
    (GHCmd._rollback_changes {} rollbackStFlagged).2.world.trace =
      [Event.call (Call.ghRepoDelete "demo"), Event.rmtree ["home", "demo"]] ∧
    (GHCmd._rollback_changes {} rollbackStFlagged).2.world.remoteRepos = [] ∧
    (GHCmd._rollback_changes {} rollbackStFlagged).2.world.dirs = [["home"]] := by
  refine ⟨rfl, by decide, ?_, by decide, rfl, rfl, rfl⟩
  intro p
  have htr : (GHCmd.runExecute { gitInitOk := false } (minimalOpts "demo") homeWorld).2.world.trace =
      [Event.call .gitVersion, Event.call .ghVersion, Event.call .ghAuthStatus,
       Event.call .ghApiUser, Event.mkdir ["home", "demo"], Event.chdir ["home", "demo"],
       Event.call (.gitInit "main"), Event.chdir ["home"]] := rfl
  rw [htr]
  intro hmem
  simp only [List.mem_cons, List.not_mem_nil, or_false] at hmem
  rcases hmem with h | h | h | h | h | h | h | h <;> exact Event.noConfusion h

/-- C2 counterexample: in the standalone implementation, executing with a
repository name whose directory already exists does not fail at all - the
mkdir uses exist_ok=True - and the remote-creation call is made and
succeeds, so execution does not stop before the remote call as claimed. -/
theorem existing_dir_not_rejected_standalone :
    (GHCmd.runExecute {} (minimalOpts "taken") takenWorld).1 = Except.ok () ∧
    (GHCmd.runExecute {} (minimalOpts "taken") takenWorld).2.world.remoteRepos = ["taken"] ∧
    Event.call (Call.ghRepoCreate "taken" "--private") ∈
      (GHCmd.runExecute {} (minimalOpts "taken") takenWorld).2.world.trace := by
  exact ⟨rfl, rfl, by decide⟩

/-- C1 counterexample: in the standalone implementation a failing remote
creation call is not fatal: execute returns normally, nothing is rolled
back (no rollback message, no remote deletion, the local directory
survives), and the remote-created flag is false. -/
theorem remote_creation_failure_not_fatal_standalone :
    (GHCmd.runExecute { ghRepoCreateOk := false } (minimalOpts "demo") homeWorld).1 = Except.ok () ∧
    (GHCmd.runExecute { ghRepoCreateOk := false } (minimalOpts "demo") homeWorld).2.cs.github_repo_created = false ∧
    "Rolling back changes..." ∉
      (GHCmd.runExecute { ghRepoCreateOk := false } (minimalOpts "demo") homeWorld).2.world.output ∧
    Event.call (Call.ghRepoDelete "demo") ∉
      (GHCmd.runExecute { ghRepoCreateOk := false } (minimalOpts "demo") homeWorld).2.world.trace ∧
    ["home", "demo"] ∈ (GHCmd.runExecute { ghRepoCreateOk := false } (minimalOpts "demo") homeWorld).2.world.dirs := by
  exact ⟨rfl, rfl, by decide, by decide, by decide⟩

/-- C1 amended: when the remote-repository creation call fails, (1) in the
standalone implementation the failure is caught inside
_create_github_repo and logged as a warning - the method returns
normally, the command state (remote-created flag included) is unchanged,
no remote repository exists, and no rollback is triggered by it; (2) in
the packaged implementation the creation step raises, and (3) its execute
then runs rollback (restoring the working directory, attempting remote
deletion, deleting the local directory) and re-raises the error. -/
theorem remote_creation_failure_behavior :
    (∀ (env : Env) (s : GHCmd.St), env.ghRepoCreateOk = false →
      (GHCmd._create_github_repo env s).1 = Except.ok () ∧
      (GHCmd._create_github_repo env s).2.cs = s.cs ∧
      (GHCmd._create_github_repo env s).2.world.remoteRepos = s.world.remoteRepos ∧
      "You may need to set up the remote manually." ∈
        (GHCmd._create_github_repo env s).2.world.output) ∧
    (∀ (env : Env) (s : GHPkg.St), env.ghRepoCreateOk = false →
      (GHPkg._create_github_repo env s).1 =
        Except.error (.calledProcessError "gh repo create" env.ghRepoCreateStderr)) ∧
    ((GHPkg.runExecute { ghRepoCreateOk := false } (minimalOptsPkg "demo") homeWorld).1 =
        Except.error (.calledProcessError "gh repo create" "") ∧
      (GHPkg.runExecute { ghRepoCreateOk := false } (minimalOptsPkg "demo") homeWorld).2.world.cwd = ["home"] ∧
      Event.call (Call.ghRepoDelete "user/demo") ∈
        (GHPkg.runExecute { ghRepoCreateOk := false } (minimalOptsPkg "demo") homeWorld).2.world.trace ∧
      (GHPkg.runExecute { ghRepoCreateOk := false } (minimalOptsPkg "demo") homeWorld).2.world.dirs = [["home"]]) := by
  refine ⟨?_, ?_, rfl, rfl, by decide, rfl⟩
  · intro env s h
    unfold GHCmd._create_github_repo
    simp [GHCmd.getSt, GHCmd.printLn, GHCmd.ghCreateRemote, World.printOut, World.logCall, h,
      PyErr.msg]
  · intro env s h
    unfold GHPkg._create_github_repo
    simp [GHPkg.getSt, GHPkg.ghCreateRemote, World.logCall, h]

/-- C1 witness: the amended theorem applied at a concrete environment in
which the creation call fails and at a concrete mid-run state. -/
theorem remote_creation_failure_behavior_witness :
    (GHCmd._create_github_repo { ghRepoCreateOk := false } rollbackSt).1 = Except.ok () ∧
    (GHCmd._create_github_repo { ghRepoCreateOk := false } rollbackSt).2.cs = rollbackSt.cs ∧
    (GHPkg._create_github_repo { ghRepoCreateOk := false } (GHPkg.mkSt (minimalOptsPkg "demo") homeWorld)).1 =
      Except.error (.calledProcessError "gh repo create" "") := by
  refine ⟨(remote_creation_failure_behavior.1 { ghRepoCreateOk := false } rollbackSt rfl).1,
    (remote_creation_failure_behavior.1 { ghRepoCreateOk := false } rollbackSt rfl).2.1,
    remote_creation_failure_behavior.2.1 { ghRepoCreateOk := false }
      (GHPkg.mkSt (minimalOptsPkg "demo") homeWorld) rfl⟩

/-- C2 amended: in the packaged implementation, when the gh and git checks
pass and the repository-name directory already exists, execute fails in
prerequisite validation with the directory-already-exists error before
any mutation and before any remote-creation call: the filesystem, the
remote repositories and the working directory are untouched, and the
trace holds exactly the two validation spawns.  (In the standalone
implementation the existing directory is not detected at all - its mkdir
passes exist_ok=True - and execution proceeds to create the remote, as
the counterexample shows; its remote-created flag is false only until
that later step.) -/
theorem existing_dir_rejected_packaged (env : Env) (o : GHPkg.GitHubInitOptions) (w : World)
    (hd : o.dry_run = false) (hauth : env.ghAuthOk = true) (hgit : env.gitVersionOk = true)
    (hex : w.pathExists (w.cwd ++ strSplit o.repo_name '/') = true) :
    (GHPkg.runExecute env o w).1 =
      Except.error (.runtimeError ("Directory " ++ o.repo_name ++ " already exists")) ∧
    (GHPkg.runExecute env o w).2.world.dirs = w.dirs ∧
    (GHPkg.runExecute env o w).2.world.files = w.files ∧
    (GHPkg.runExecute env o w).2.world.remoteRepos = w.remoteRepos ∧
    (GHPkg.runExecute env o w).2.world.cwd = w.cwd ∧
    (GHPkg.runExecute env o w).2.world.trace =
      w.trace ++ [Event.call .ghAuthStatus, Event.call .gitVersion] := by
  unfold GHPkg.runExecute GHPkg.execute GHPkg._validate_prerequisites
  simp [World.pathExists, World.resolve] at hex
  simp [GHPkg.getSt, GHPkg.runPlain, GHPkg.pathExistsRel, GHPkg.mkSt, World.logCall,
    World.pathExists, World.resolve, hd, hauth, hgit, hex]

/-- C2 witness: the amended theorem applied to the world in which
/home/taken exists, with every check passing. -/
theorem existing_dir_rejected_packaged_witness :
    (GHPkg.runExecute {} (minimalOptsPkg "taken") takenWorld).1 =
      Except.error (.runtimeError "Directory taken already exists") ∧
    (GHPkg.runExecute {} (minimalOptsPkg "taken") takenWorld).2.world.remoteRepos = [] := by
  have h := existing_dir_rejected_packaged {} (minimalOptsPkg "taken") takenWorld rfl rfl rfl
    (by decide)
  exact ⟨h.1, h.2.2.2.1⟩

/-- C9: the license-creation step writes a LICENSE file precisely when the
request license identifier upper-cases to MIT (case-insensitive match);
for any other identifier, the CLI-accepted Apache-2.0 and GPL-3.0
included, it writes nothing and raises nothing: the step returns normally
for every input. -/
theorem license_written_iff_mit (env : Env) (s : GHCmd.St) :
    (GHCmd._create_license env s).1 = Except.ok () ∧
    (GHCmd._create_license env s).2.world.files =
      (if s.cs.options.license.map strUpper = some "MIT" then
        (s.world.cwd ++ ["LICENSE"],
         "MIT License\n\nCopyright (c) " ++ natToStr env.year ++ " [Your Name]\n\n"
           ++ mit_license_body) :: s.world.files
       else s.world.files) := by
  have hres : strSplit "LICENSE" '/' = ["LICENSE"] := by decide
  have hup : strUpper "" = "" := by decide
  have hne : ("" : String) ≠ "MIT" := by decide
  unfold GHCmd._create_license
  cases hl : s.cs.options.license with
  | none => simp [GHCmd.getSt, GHCmd.writeFile, World.doWrite, World.resolve, optStrTruthy, hl]
  | some l =>
    by_cases he : l = ""
    · subst he
      simp [GHCmd.getSt, optStrTruthy, hl, hup, hne]
    · by_cases hm : strUpper l = "MIT"
      · simp [GHCmd.getSt, GHCmd.writeFile, World.doWrite, World.resolve, optStrTruthy, hl, he,
          hm, hres]
      · simp [GHCmd.getSt, optStrTruthy, hl, he, hm]

/-- C10: gitignore template selection is total: the write step always
succeeds and writes the selected template; selection for None and for any
identifier outside the seven known template keys falls back to the
general template, and the selected content is never empty, so a requested
gitignore write never fails on an unknown identifier. -/
theorem gitignore_lookup_total (s : GHCmd.St) :
    (GHCmd._create_gitignore s).1 = Except.ok () ∧
    (GHCmd._create_gitignore s).2.world.files =
      (s.world.cwd ++ [".gitignore"], GHCmd.selectGitignoreTemplate s.cs.options.gitignore)
        :: s.world.files ∧
    GHCmd.selectGitignoreTemplate none = general_gitignore ∧
    (∀ t : String, t ∉ ["python", "node", "general", "rust", "go", "java", "csharp"] →
      GHCmd.selectGitignoreTemplate (some t) = general_gitignore) ∧
    (∀ g : Option String, GHCmd.selectGitignoreTemplate g ≠ "") := by
  have hres : strSplit ".gitignore" '/' = [".gitignore"] := by decide
  refine ⟨?_, ?_, by decide, ?_, ?_⟩
  · unfold GHCmd._create_gitignore
    simp [GHCmd.getSt, GHCmd.writeFile, World.doWrite]
  · unfold GHCmd._create_gitignore
    simp [GHCmd.getSt, GHCmd.writeFile, World.doWrite, World.resolve, hres]
  · intro t ht
    simp only [List.mem_cons, List.not_mem_nil, or_false, not_or] at ht
    obtain ⟨h1, h2, h3, h4, h5, h6, h7⟩ := ht
    by_cases he : t = ""
    · subst he; decide
    · have b1 : ("python" == t) = false := beq_eq_false_iff_ne.mpr (Ne.symm h1)
      have b2 : ("node" == t) = false := beq_eq_false_iff_ne.mpr (Ne.symm h2)
      have b3 : ("general" == t) = false := beq_eq_false_iff_ne.mpr (Ne.symm h3)
      have b4 : ("rust" == t) = false := beq_eq_false_iff_ne.mpr (Ne.symm h4)
      have b5 : ("go" == t) = false := beq_eq_false_iff_ne.mpr (Ne.symm h5)
      have b6 : ("java" == t) = false := beq_eq_false_iff_ne.mpr (Ne.symm h6)
      have b7 : ("csharp" == t) = false := beq_eq_false_iff_ne.mpr (Ne.symm h7)
      simp [GHCmd.selectGitignoreTemplate, GHCmd.templatesGet, GHCmd.gitignore_templates,
        pyOrDefault, he, List.find?, b1, b2, b3, b4, b5, b6, b7]
  · intro g
    cases g with
    | none => decide
    | some t =>
      have hsel : GHCmd.selectGitignoreTemplate (some t) =
          GHCmd.templatesGet (if t = "" then "general" else t) general_gitignore := by
        simp [GHCmd.selectGitignoreTemplate, pyOrDefault]
      rw [hsel]
      set k := if t = "" then "general" else t with hk
      unfold GHCmd.templatesGet
      cases hf : GHCmd.gitignore_templates.find? (fun e => e.fst == k) with
      | none => simp; decide
      | some e =>
        have hmem : e ∈ GHCmd.gitignore_templates := List.mem_of_find?_eq_some hf
        simp only [GHCmd.gitignore_templates, List.mem_cons, List.not_mem_nil, or_false] at hmem
        rcases hmem with h | h | h | h | h | h | h <;> subst h <;> simp <;> decide

/-- C10 witness: the totality theorem applied at an unknown identifier and
at a concrete state. -/
theorem gitignore_lookup_total_witness :
    GHCmd.selectGitignoreTemplate (some "haskell") = general_gitignore ∧
    (GHCmd._create_gitignore rollbackSt).1 = Except.ok () := by
  exact ⟨(gitignore_lookup_total rollbackSt).2.2.2.1 "haskell" (by decide),
    (gitignore_lookup_total rollbackSt).1⟩

/-- Printing a list of lines only appends them to the output. -/
theorem forM_printLn (ls : List String) (s : GHCmd.St) :
    (ls.forM GHCmd.printLn) s =
      (Except.ok (), { s with world := { s.world with output := s.world.output ++ ls } }) := by
  induction ls generalizing s with
  | nil => simp [List.forM]
  | cons a t ih => simp [List.forM, GHCmd.printLn, World.printOut, ih, List.append_assoc]

/-- C5: with the dry-run flag set, execute returns normally having done
nothing but append the pure projection `dryRunLines` of the request to
the output: the filesystem (dirs/files), the remote repositories, the
working directory and the call/effect trace are exactly those of the
initial world (so no external process is spawned, prerequisite validation
included), and the created-files list, created-dirs list and
remote-created flag are exactly those of the freshly constructed command
state. -/
theorem dry_run_is_pure_projection (env : Env) (o : GitHubInitOptions) (w : World)
    (h : o.dry_run = true) :
    GHCmd.runExecute env o w =
      (Except.ok (),
       { world := { w with output := w.output ++ GHCmd.dryRunLines o },
         cs := (GHCmd.mkSt o w).cs }) := by
  unfold GHCmd.runExecute GHCmd.execute GHCmd._execute_dry_run
  simp [GHCmd.getSt, GHCmd.mkSt, h, forM_printLn]

/-- C5 witness: the purity theorem applied at a concrete dry-run request. -/
theorem dry_run_is_pure_projection_witness :
    GHCmd.runExecute {} { repo_name := "demo", dry_run := true } homeWorld =
      (Except.ok (),
       { world := { homeWorld with
           output := homeWorld.output ++ GHCmd.dryRunLines { repo_name := "demo", dry_run := true } },
         cs := (GHCmd.mkSt { repo_name := "demo", dry_run := true } homeWorld).cs }) :=
  dry_run_is_pure_projection {} { repo_name := "demo", dry_run := true } homeWorld rfl
/-- Helper: the project-scope access check never raises, whatever the
gh project list outcome. -/
theorem project_access_check_never_fails (env : Env) (s : GHCmd.St) :
    (GHCmd.project_access_check env s).1 = Except.ok () := by
  unfold GHCmd.project_access_check
  cases hpl : env.ghProjectListOk with
  | true => simp [GHCmd.runChecked, GHCmd.printLn, hpl]
  | false =>
    simp only [GHCmd.runChecked, GHCmd.printLn, M.bind_apply, attempt_apply, hpl,
      Bool.false_eq_true, if_false]
    split <;> simp [GHCmd.printLn]

/-- Helper: the node check succeeds exactly when node is present and any
parsed major version is at least 18; unparseable output is a warning. -/
theorem node_check_ok_iff (env : Env) (s : GHCmd.St) :
    (GHCmd.node_check env s).1 = Except.ok () ↔
      (env.nodeOk = true ∧ ∀ major, GHCmd.nodeMajorOf env = some major → 18 ≤ major) := by
  unfold GHCmd.node_check
  cases hnode : env.nodeOk with
  | false => simp [GHCmd.runChecked, GHCmd.printLn, hnode]
  | true =>
    cases hparse : GHCmd.nodeMajorOf env with
    | none => simp [GHCmd.runChecked, GHCmd.printLn, hnode, hparse]
    | some major =>
      by_cases hlt : major < 18
      · simp [GHCmd.runChecked, GHCmd.printLn, hnode, hparse, hlt]
      · simp [GHCmd.runChecked, GHCmd.printLn, hnode, hparse, hlt]
        omega
/-- Sequencing in `M`: when the first action's success is equivalent to
`Px` and, on success, the continuation's success is equivalent to `Pf`
from every state, the sequence succeeds exactly when both hold. -/
theorem seq_ok_iff {σ : Type} (x : M σ Unit) (f : Unit → M σ Unit) (Px Pf : Prop)
    (hx : ∀ s, (x s).1 = Except.ok () ↔ Px)
    (hf : ∀ s, ((f ()) s).1 = Except.ok () ↔ Pf) (s : σ) :
    ((x >>= f) s).1 = Except.ok () ↔ (Px ∧ Pf) := by
  have hx1 := hx s
  rcases hxe : x s with ⟨r, s1⟩
  rw [hxe] at hx1
  simp only [M.bind_apply, hxe]
  cases r with
  | error e =>
    simp only at hx1 ⊢
    constructor
    · intro h; exact absurd h (by simp)
    · rintro ⟨hp, _⟩; exact absurd (hx1.mpr hp) (by simp)
  | ok a =>
    cases a
    have hp : Px := hx1.mp rfl
    rw [hf s1]
    simp [hp]

/-- Sequencing when the first action always succeeds. -/
theorem seq_ok_iff_left {σ : Type} (x : M σ Unit) (f : Unit → M σ Unit) (Pf : Prop)
    (hx : ∀ s, (x s).1 = Except.ok ())
    (hf : ∀ s, ((f ()) s).1 = Except.ok () ↔ Pf) (s : σ) :
    ((x >>= f) s).1 = Except.ok () ↔ Pf := by
  have := seq_ok_iff x f True Pf (fun s => by simp [hx s]) hf s
  simpa using this

theorem git_check_ok_iff (env : Env) (s : GHCmd.St) :
    (GHCmd.git_check env s).1 = Except.ok () ↔ env.gitVersionOk = true := by
  unfold GHCmd.git_check
  cases h : env.gitVersionOk with
  | true => simp [GHCmd.runChecked, GHCmd.printLn, h]
  | false => simp [GHCmd.runChecked, GHCmd.printLn, h]

theorem gh_cli_check_ok_iff (env : Env) (s : GHCmd.St) :
    (GHCmd.gh_cli_check env s).1 = Except.ok () ↔ env.ghVersionOk = true := by
  unfold GHCmd.gh_cli_check
  cases h : env.ghVersionOk with
  | true => simp [GHCmd.runChecked, GHCmd.printLn, h]
  | false => simp [GHCmd.runChecked, GHCmd.printLn, h]

theorem auth_check_ok_iff (env : Env) (s : GHCmd.St) :
    (GHCmd.auth_check env s).1 = Except.ok () ↔ env.ghAuthOk = true := by
  unfold GHCmd.auth_check
  cases h : env.ghAuthOk with
  | true => simp [GHCmd.runChecked, GHCmd.printLn, h]
  | false =>
    simp only [GHCmd.runChecked, GHCmd.printLn, M.bind_apply, attempt_apply, h,
      Bool.false_eq_true, if_false]
    split <;> simp [throwErr]
theorem api_check_ok_iff (env : Env) (s : GHCmd.St) :
    (GHCmd.api_check env s).1 = Except.ok () ↔ env.ghApiUserOk = true := by
  unfold GHCmd.api_check
  cases h : env.ghApiUserOk with
  | true => simp [GHCmd.runChecked, GHCmd.printLn, h]
  | false => simp [GHCmd.runChecked, GHCmd.printLn, h]

theorem validate_core_ok_iff (env : Env) (o : GitHubInitOptions) (s : GHCmd.St) :
    ((GHCmd.validate_core env o) s).1 = Except.ok () ↔
      (env.gitVersionOk = true ∧ env.ghVersionOk = true ∧ env.ghAuthOk = true ∧
       env.ghApiUserOk = true ∧
       (o.create_website = true →
         env.nodeOk = true ∧ ∀ major, GHCmd.nodeMajorOf env = some major → 18 ≤ major)) := by
  unfold GHCmd.validate_core
  refine seq_ok_iff_left _ _ _ (fun s1 => rfl) (fun s1 => ?_) s
  refine seq_ok_iff _ _ _ _ (fun s2 => git_check_ok_iff env s2) (fun s2 => ?_) s1
  refine seq_ok_iff _ _ _ _ (fun s3 => gh_cli_check_ok_iff env s3) (fun s3 => ?_) s2
  refine seq_ok_iff _ _ _ _ (fun s4 => auth_check_ok_iff env s4) (fun s4 => ?_) s3
  refine seq_ok_iff _ _ _ _ (fun s5 => api_check_ok_iff env s5) (fun s5 => ?_) s4
  cases hcp : o.create_project with
  | true =>
    refine seq_ok_iff_left _ _ _ (fun s6 => project_access_check_never_fails env s6)
      (fun s6 => ?_) s5
    cases hcw : o.create_website with
    | true => simpa [hcw] using node_check_ok_iff env s6
    | false => simp [hcw]
  | false =>
    refine seq_ok_iff_left _ _ _ (fun s6 => rfl) (fun s6 => ?_) s5
    cases hcw : o.create_website with
    | true => simpa [hcw] using node_check_ok_iff env s6
    | false => simp [hcw]

/-- C6 amended: prerequisite validation succeeds exactly when the git
check, the gh presence check, the gh authentication check and the gh API
check all exit zero, and - when a documentation site is requested - node
is present with any parsed major version at least 18.  Consequently a
non-zero exit of those checks is a hard failure, but a failing
project-access check (when a project board is requested) and unparseable
node version output are warnings only, contradicting the claim for those
two checks. -/
theorem validate_fatal_iff (env : Env) (s : GHCmd.St) :
    (GHCmd._validate_prerequisites env s).1 = Except.ok () ↔
      (env.gitVersionOk = true ∧ env.ghVersionOk = true ∧ env.ghAuthOk = true ∧
       env.ghApiUserOk = true ∧
       (s.cs.options.create_website = true →
         env.nodeOk = true ∧ ∀ major, GHCmd.nodeMajorOf env = some major → 18 ≤ major)) := by
  have h : GHCmd._validate_prerequisites env s = GHCmd.validate_core env s.cs.options s := rfl
  rw [h]
  exact validate_core_ok_iff env s.cs.options s

/-- C6 counterexample: a failing project-access check (with a scope-themed
stderr) and an unparseable node version both leave validation successful:
neither aborts the run, refuting the claim that every prerequisite check
failure is a hard failure. -/
theorem project_and_node_parse_failures_not_fatal :
    (GHCmd._validate_prerequisites
        { ghProjectListOk := false, ghProjectListStderr := "insufficient scopes" }
        (GHCmd.mkSt { repo_name := "demo" } homeWorld)).1 = Except.ok () ∧
    (GHCmd._validate_prerequisites { nodeVersionOut := "weird" }
        (GHCmd.mkSt { repo_name := "demo", create_website := true } homeWorld)).1 =
      Except.ok () := by
  exact ⟨rfl, rfl⟩

/-- C6 witness: the characterization applied at an environment whose API
check fails, showing validation cannot succeed there. -/
theorem validate_fatal_iff_witness :
    (GHCmd._validate_prerequisites { ghApiUserOk := false }
        (GHCmd.mkSt { repo_name := "demo" } homeWorld)).1 ≠ Except.ok () := by
  intro hok
  have h := validate_fatal_iff { ghApiUserOk := false }
    (GHCmd.mkSt { repo_name := "demo" } homeWorld)
  exact absurd (h.mp hok).2.2.2.1 (by decide)
/-- C7 counterexample: with no CLI branch or readme flag supplied, the
config values default_branch: develop and readme: false are ignored -
the merge yields the hard-coded main and True instead of the config
values, refuting the claim that an unsupplied field takes the config-file
value if present. -/
theorem config_readme_branch_ignored :
    (mergeOptions { repo_name := "r" }
        { default_branch := some "develop", readme := some false }).default_branch = "main" ∧
    (mergeOptions { repo_name := "r" }
        { default_branch := some "develop", readme := some false }).readme = true ∧
    ("main" : String) ≠ "develop" := by
  exact ⟨rfl, rfl, by decide⟩

/-- C7 amended: the CLI-over-config-over-default precedence holds for
description, private, license, gitignore, topics, create_website,
enable_claude_review, enable_dependabot, create_project,
enable_auto_version, enable_auto_merge and enable_auto_release - an
explicitly supplied value wins and an unsupplied one takes the config
value when present, else the hard-coded default - but not for readme and
default_branch: readme always takes the CLI value (the config value is
never consulted), and default_branch keeps the argparse default "main"
whenever the flag is unsupplied, so their config values are ignored. -/
theorem cli_config_merge_precedence :
    (∀ (p : Parsed) (c : Config) (d : String), d ≠ "" →
      (mergeOptions { p with description := some d } c).description = some d) ∧
    (∀ (p : Parsed) (c : Config), p.description = none →
      (mergeOptions p c).description = c.description) ∧
    (∀ (p : Parsed) (c : Config), (mergeOptions { p with public := true } c).private_ = false) ∧
    (∀ (p : Parsed) (c : Config), p.public = false →
      (mergeOptions p c).private_ = c.private_.getD true) ∧
    (∀ (p : Parsed) (c : Config) (d : String), d ≠ "" →
      (mergeOptions { p with license := some d } c).license = some d) ∧
    (∀ (p : Parsed) (c : Config), p.license = none →
      (mergeOptions p c).license = c.license) ∧
    (∀ (p : Parsed) (c : Config) (d : String), d ≠ "" →
      (mergeOptions { p with gitignore := some d } c).gitignore = some d) ∧
    (∀ (p : Parsed) (c : Config), p.gitignore = none →
      (mergeOptions p c).gitignore = c.gitignore) ∧
    (∀ (p : Parsed) (c : Config) (t : String), t ≠ "" →
      (mergeOptions { p with topics := some t } c).topics = some (strSplit t ',')) ∧
    (∀ (p : Parsed) (c : Config), p.topics = none →
      (mergeOptions p c).topics = c.topics) ∧
    (∀ (p : Parsed) (c : Config),
      (mergeOptions { p with create_website := true } c).create_website = true) ∧
    (∀ (p : Parsed) (c : Config), p.create_website = false →
      (mergeOptions p c).create_website = c.create_website.getD false) ∧
    (∀ (p : Parsed) (c : Config),
      (mergeOptions { p with enable_claude_review := true } c).enable_claude_review = true) ∧
    (∀ (p : Parsed) (c : Config), p.enable_claude_review = false →
      (mergeOptions p c).enable_claude_review = c.enable_claude_review.getD false) ∧
    (∀ (p : Parsed) (c : Config),
      (mergeOptions { p with no_dependabot := true } c).enable_dependabot = false) ∧
    (∀ (p : Parsed) (c : Config), p.no_dependabot = false →
      (mergeOptions p c).enable_dependabot = c.enable_dependabot.getD true) ∧
    (∀ (p : Parsed) (c : Config),
      (mergeOptions { p with no_project := true } c).create_project = false) ∧
    (∀ (p : Parsed) (c : Config), p.no_project = false →
      (mergeOptions p c).create_project = c.create_project.getD true) ∧
    (∀ (p : Parsed) (c : Config),
      (mergeOptions { p with no_auto_version := true } c).enable_auto_version = false) ∧
    (∀ (p : Parsed) (c : Config), p.no_auto_version = false →
      (mergeOptions p c).enable_auto_version = c.enable_auto_version.getD true) ∧
    (∀ (p : Parsed) (c : Config),
      (mergeOptions { p with no_auto_merge := true } c).enable_auto_merge = false) ∧
    (∀ (p : Parsed) (c : Config), p.no_auto_merge = false →
      (mergeOptions p c).enable_auto_merge = c.enable_auto_merge.getD true) ∧
    (∀ (p : Parsed) (c : Config),
      (mergeOptions { p with no_auto_release := true } c).enable_auto_release = false) ∧
    (∀ (p : Parsed) (c : Config), p.no_auto_release = false →
      (mergeOptions p c).enable_auto_release = c.enable_auto_release.getD true) ∧
    (∀ (p : Parsed) (c : Config), (mergeOptions p c).readme = p.readme) ∧
    (∀ (p : Parsed) (c : Config) (b : String), b ≠ "" →
      (mergeOptions { p with default_branch := b } c).default_branch = b) ∧
    (∀ (p : Parsed) (c : Config), p.default_branch = "main" →
      (mergeOptions p c).default_branch = "main") := by
  refine ⟨?_, ?_, ?_, ?_, ?_, ?_, ?_, ?_, ?_, ?_, ?_, ?_, ?_, ?_, ?_, ?_, ?_, ?_, ?_, ?_, ?_,
    ?_, ?_, ?_, ?_, ?_, ?_⟩
  · intro p c d h; simp [mergeOptions, pyOrOpt, h]
  · intro p c h; simp [mergeOptions, pyOrOpt, h]
  · intro p c; simp [mergeOptions]
  · intro p c h; simp [mergeOptions, h]
  · intro p c d h; simp [mergeOptions, pyOrOpt, h]
  · intro p c h; simp [mergeOptions, pyOrOpt, h]
  · intro p c d h; simp [mergeOptions, pyOrOpt, h]
  · intro p c h; simp [mergeOptions, pyOrOpt, h]
  · intro p c t h; simp [mergeOptions, h]
  · intro p c h; simp [mergeOptions, h]
  · intro p c; simp [mergeOptions]
  · intro p c h; simp [mergeOptions, h]
  · intro p c; simp [mergeOptions]
  · intro p c h; simp [mergeOptions, h]
  · intro p c; simp [mergeOptions]
  · intro p c h; simp [mergeOptions, h]
  · intro p c; simp [mergeOptions]
  · intro p c h; simp [mergeOptions, h]
  · intro p c; simp [mergeOptions]
  · intro p c h; simp [mergeOptions, h]
  · intro p c; simp [mergeOptions]
  · intro p c h; simp [mergeOptions, h]
  · intro p c; simp [mergeOptions]
  · intro p c h; simp [mergeOptions, h]
  · intro p c; simp [mergeOptions]
  · intro p c b h; simp [mergeOptions, h]
  · intro p c h; simp [mergeOptions, h]

/-- C7 witness: the precedence theorem applied at concrete CLI/config
values - an explicit description wins over the config value, and an
unsupplied visibility takes the config value. -/
theorem cli_config_merge_precedence_witness :
    (mergeOptions { repo_name := "r", description := some "x" }
        { description := some "cfg" }).description = some "x" ∧
    (mergeOptions { repo_name := "r" } { private_ := some false }).private_ = false := by
  refine ⟨cli_config_merge_precedence.1 { repo_name := "r" } { description := some "cfg" } "x"
      (by decide), ?_⟩
  have h := cli_config_merge_precedence.2.2.2.1 { repo_name := "r" }
    { private_ := some false } rfl
  exact h.trans rfl
/-- A computation preserves the saved original directory of the command
state. -/
def PreservesOrig {α : Type} (m : M GHCmd.St α) : Prop :=
  ∀ s, ((m s).2).cs.original_dir = s.cs.original_dir

theorem po_pure {α : Type} (a : α) : PreservesOrig (pure a : M GHCmd.St α) := fun _ => rfl

theorem po_throw {α : Type} (e : PyErr) : PreservesOrig (throwErr e : M GHCmd.St α) :=
  fun _ => rfl

theorem po_bind {α β : Type} {x : M GHCmd.St α} {f : α → M GHCmd.St β}
    (hx : PreservesOrig x) (hf : ∀ a, PreservesOrig (f a)) : PreservesOrig (x >>= f) := by
  intro s
  have hxs := hx s
  rcases hxe : x s with ⟨r, s1⟩
  rw [hxe] at hxs
  simp only [M.bind_apply, hxe]
  cases r with
  | error e => exact hxs
  | ok a => exact (hf a s1).trans hxs

theorem po_attempt {α : Type} {x : M GHCmd.St α} {h : PyErr → M GHCmd.St α}
    (hx : PreservesOrig x) (hh : ∀ e, PreservesOrig (h e)) : PreservesOrig (attempt x h) := by
  intro s
  have hxs := hx s
  rcases hxe : x s with ⟨r, s1⟩
  rw [hxe] at hxs
  simp only [attempt_apply, hxe]
  cases r with
  | error e => exact (hh e s1).trans hxs
  | ok a => exact hxs

theorem po_ite {α : Type} {c : Prop} [Decidable c] {x y : M GHCmd.St α}
    (hx : PreservesOrig x) (hy : PreservesOrig y) : PreservesOrig (if c then x else y) := by
  by_cases h : c
  · simpa [h] using hx
  · simpa [h] using hy

theorem po_forM {α : Type} (l : List α) (f : α → M GHCmd.St Unit)
    (hf : ∀ a, PreservesOrig (f a)) : PreservesOrig (l.forM f) := by
  induction l with
  | nil => exact fun _ => rfl
  | cons a t ih => simpa [List.forM] using po_bind (hf a) (fun _ => ih)

theorem po_printLn (msg : String) : PreservesOrig (GHCmd.printLn msg) := fun _ => rfl
theorem po_getSt : PreservesOrig GHCmd.getSt := fun _ => rfl
theorem po_runChecked (c : Call) (ok : Bool) (st : String) :
    PreservesOrig (GHCmd.runChecked c ok st) := by
  intro s; unfold GHCmd.runChecked; split <;> rfl
theorem po_chdirRel (n : String) : PreservesOrig (GHCmd.chdirRel n) := fun _ => rfl
theorem po_chdirAbs (p : DirPath) : PreservesOrig (GHCmd.chdirAbs p) := fun _ => rfl
theorem po_mkdir (n : String) : PreservesOrig (GHCmd.mkdirParentsOk n) := fun _ => rfl
theorem po_writeFile (n c : String) : PreservesOrig (GHCmd.writeFile n c) := fun _ => rfl
theorem po_appendFile (n c : String) : PreservesOrig (GHCmd.appendFile n c) := fun _ => rfl
theorem po_pathExists (n : String) : PreservesOrig (GHCmd.pathExistsRel n) := fun _ => rfl
theorem po_readFile (n : String) : PreservesOrig (GHCmd.readFileRel n) := fun _ => rfl
theorem po_rmtree (n : String) (ok : Bool) : PreservesOrig (GHCmd.rmtreeRel n ok) := by
  intro s; unfold GHCmd.rmtreeRel; split <;> rfl
theorem po_setRepoCreated : PreservesOrig GHCmd.setRepoCreated := fun _ => rfl
theorem po_ghCreate (n v : String) (ok : Bool) (st : String) :
    PreservesOrig (GHCmd.ghCreateRemote n v ok st) := by
  intro s; unfold GHCmd.ghCreateRemote; split <;> rfl
theorem po_ghDelete (n : String) (ok : Bool) : PreservesOrig (GHCmd.ghDeleteRemote n ok) := by
  intro s; unfold GHCmd.ghDeleteRemote; split <;> rfl
theorem po_git_check (env : Env) : PreservesOrig (GHCmd.git_check env) := by
  unfold GHCmd.git_check
  refine po_attempt (po_bind (po_runChecked _ _ _) (fun _ => po_printLn _)) (fun e => ?_)
  cases e <;> exact po_throw _

theorem po_gh_cli_check (env : Env) : PreservesOrig (GHCmd.gh_cli_check env) := by
  unfold GHCmd.gh_cli_check
  refine po_attempt (po_bind (po_runChecked _ _ _) (fun _ => po_printLn _)) (fun e => ?_)
  cases e <;> exact po_throw _

theorem po_auth_check (env : Env) : PreservesOrig (GHCmd.auth_check env) := by
  unfold GHCmd.auth_check
  refine po_attempt (po_bind (po_runChecked _ _ _) (fun _ => po_printLn _)) (fun e => ?_)
  cases e with
  | calledProcessError c st => exact po_ite (po_throw _) (po_throw _)
  | _ => exact po_throw _

theorem po_api_check (env : Env) : PreservesOrig (GHCmd.api_check env) := by
  unfold GHCmd.api_check
  refine po_attempt (po_bind (po_runChecked _ _ _) (fun _ => po_printLn _)) (fun e => ?_)
  cases e <;> exact po_throw _

theorem po_project_access_check (env : Env) : PreservesOrig (GHCmd.project_access_check env) := by
  unfold GHCmd.project_access_check
  refine po_attempt (po_bind (po_runChecked _ _ _) (fun _ => po_printLn _)) (fun e => ?_)
  cases e with
  | calledProcessError c st =>
    exact po_ite (po_bind (po_printLn _) (fun _ => po_bind (po_printLn _)
      (fun _ => po_printLn _))) (po_printLn _)
  | _ => exact po_throw _

theorem po_node_check (env : Env) : PreservesOrig (GHCmd.node_check env) := by
  unfold GHCmd.node_check
  refine po_attempt (po_bind (po_runChecked _ _ _) (fun _ => ?_)) (fun e => ?_)
  · cases GHCmd.nodeMajorOf env with
    | none => exact po_throw _
    | some major => exact po_ite (po_throw _) (po_printLn _)
  · cases e with
    | calledProcessError c st => exact po_throw _
    | valueError => exact po_printLn _
    | _ => exact po_throw _

theorem po_validate_core (env : Env) (o : GitHubInitOptions) :
    PreservesOrig (GHCmd.validate_core env o) := by
  unfold GHCmd.validate_core
  refine po_bind (po_printLn _) (fun _ => ?_)
  refine po_bind (po_git_check env) (fun _ => ?_)
  refine po_bind (po_gh_cli_check env) (fun _ => ?_)
  refine po_bind (po_auth_check env) (fun _ => ?_)
  refine po_bind (po_api_check env) (fun _ => ?_)
  refine po_bind ?_ (fun _ => ?_)
  · exact po_ite (po_project_access_check env) (po_pure _)
  exact po_ite (po_node_check env) (po_pure _)

theorem po_validate (env : Env) : PreservesOrig (GHCmd._validate_prerequisites env) := by
  unfold GHCmd._validate_prerequisites
  exact po_bind po_getSt (fun s => po_validate_core env s.cs.options)

theorem po_init_git_repo (env : Env) : PreservesOrig (GHCmd._init_git_repo env) := by
  unfold GHCmd._init_git_repo
  refine po_bind po_getSt (fun s => ?_)
  refine po_bind (po_printLn _) (fun _ => ?_)
  refine po_bind (po_mkdir _) (fun _ => ?_)
  exact po_bind (po_chdirRel _) (fun _ => po_runChecked _ _ _)

theorem po_create_readme : PreservesOrig GHCmd._create_readme := by
  unfold GHCmd._create_readme
  exact po_bind po_getSt (fun s => po_writeFile _ _)

theorem po_create_gitignore : PreservesOrig GHCmd._create_gitignore := by
  unfold GHCmd._create_gitignore
  exact po_bind po_getSt (fun s => po_writeFile _ _)

theorem po_create_license (env : Env) : PreservesOrig (GHCmd._create_license env) := by
  unfold GHCmd._create_license
  exact po_bind po_getSt (fun s => po_ite (po_writeFile _ _) (po_pure _))

theorem po_create_initial_files (env : Env) :
    PreservesOrig (GHCmd._create_initial_files env) := by
  unfold GHCmd._create_initial_files
  refine po_bind po_getSt (fun s => ?_)
  refine po_bind (po_printLn _) (fun _ => ?_)
  refine po_bind ?_ (fun _ => ?_)
  · exact po_ite po_create_readme (po_pure _)
  refine po_bind ?_ (fun _ => ?_)
  · exact po_ite po_create_gitignore (po_pure _)
  exact po_ite (po_create_license env) (po_pure _)

theorem po_create_ci_workflow : PreservesOrig GHCmd._create_ci_workflow := by
  unfold GHCmd._create_ci_workflow
  exact po_bind po_getSt (fun s => po_writeFile _ _)

theorem po_create_docusaurus_deploy_workflow :
    PreservesOrig GHCmd._create_docusaurus_deploy_workflow := po_writeFile _ _

theorem po_create_pr_preview_workflow :
    PreservesOrig GHCmd._create_pr_preview_workflow := po_writeFile _ _

theorem po_create_auto_version_workflow :
    PreservesOrig GHCmd._create_auto_version_workflow := po_writeFile _ _

theorem po_create_automerge_workflow :
    PreservesOrig GHCmd._create_automerge_workflow := po_writeFile _ _

theorem po_create_release_workflow :
    PreservesOrig GHCmd._create_release_workflow := po_writeFile _ _

theorem po_create_claude_review_workflows :
    PreservesOrig GHCmd._create_claude_review_workflows :=
  po_bind (po_writeFile _ _) (fun _ => po_writeFile _ _)

theorem po_create_dependabot_config : PreservesOrig GHCmd._create_dependabot_config :=
  po_bind (po_mkdir _) (fun _ => po_writeFile _ _)

theorem po_create_github_workflows : PreservesOrig GHCmd._create_github_workflows := by
  unfold GHCmd._create_github_workflows
  refine po_bind po_getSt (fun s => ?_)
  refine po_bind (po_printLn _) (fun _ => ?_)
  refine po_bind (po_mkdir _) (fun _ => ?_)
  refine po_bind po_create_ci_workflow (fun _ => ?_)
  refine po_bind ?_ (fun _ => ?_)
  · exact po_ite (po_bind po_create_docusaurus_deploy_workflow
      (fun _ => po_create_pr_preview_workflow)) (po_pure _)
  refine po_bind ?_ (fun _ => ?_)
  · exact po_ite po_create_auto_version_workflow (po_pure _)
  refine po_bind ?_ (fun _ => ?_)
  · exact po_ite po_create_automerge_workflow (po_pure _)
  refine po_bind ?_ (fun _ => ?_)
  · exact po_ite po_create_release_workflow (po_pure _)
  refine po_bind ?_ (fun _ => ?_)
  · exact po_ite po_create_claude_review_workflows (po_pure _)
  exact po_ite po_create_dependabot_config (po_pure _)

theorem po_init_docusaurus : PreservesOrig GHCmd._init_docusaurus := by
  unfold GHCmd._init_docusaurus
  refine po_bind (po_printLn _) (fun _ => ?_)
  refine po_attempt ?_ (fun e => po_bind (po_printLn _) (fun _ => po_throw _))
  refine po_bind (po_pathExists _) (fun pkgExists => ?_)
  refine po_bind ?_ (fun _ => ?_)
  · exact po_ite (po_writeFile _ _) (po_pure _)
  refine po_bind (po_writeFile _ _) (fun _ => ?_)
  refine po_bind (po_writeFile _ _) (fun _ => ?_)
  refine po_bind (po_mkdir _) (fun _ => ?_)
  refine po_bind (po_writeFile _ _) (fun _ => ?_)
  refine po_bind (po_mkdir _) (fun _ => ?_)
  refine po_bind (po_mkdir _) (fun _ => ?_)
  refine po_bind (po_writeFile _ _) (fun _ => ?_)
  refine po_bind (po_mkdir _) (fun _ => ?_)
  refine po_bind (po_writeFile _ _) (fun _ => ?_)
  refine po_bind (po_writeFile _ _) (fun _ => ?_)
  refine po_bind (po_mkdir _) (fun _ => ?_)
  refine po_bind (po_mkdir _) (fun _ => ?_)
  refine po_bind (po_writeFile _ _) (fun _ => ?_)
  refine po_bind (po_writeFile _ _) (fun _ => ?_)
  refine po_bind (po_mkdir _) (fun _ => ?_)
  refine po_bind (po_mkdir _) (fun _ => ?_)
  refine po_bind (po_pathExists _) (fun gi => ?_)
  refine po_bind ?_ (fun existing => ?_)
  · exact po_ite (po_bind (po_readFile _) (fun c => po_pure _)) (po_pure _)
  refine po_bind ?_ (fun _ => ?_)
  · exact po_ite (po_appendFile _ _) (po_pure _)
  refine po_bind (po_printLn _) (fun _ => ?_)
  refine po_bind (po_printLn _) (fun _ => ?_)
  refine po_bind (po_printLn _) (fun _ => ?_)
  exact po_bind (po_printLn _) (fun _ => po_printLn _)

theorem po_create_github_repo (env : Env) : PreservesOrig (GHCmd._create_github_repo env) := by
  unfold GHCmd._create_github_repo
  refine po_bind po_getSt (fun s => ?_)
  refine po_bind (po_printLn _) (fun _ => ?_)
  refine po_attempt ?_ (fun e => ?_)
  · refine po_bind (po_ghCreate _ _ _ _) (fun _ => ?_)
    refine po_bind po_setRepoCreated (fun _ => ?_)
    refine po_bind (po_runChecked _ _ _) (fun _ => ?_)
    exact po_bind (po_runChecked _ _ _) (fun _ => po_printLn _)
  · cases e with
    | calledProcessError c st => exact po_bind (po_printLn _) (fun _ => po_printLn _)
    | _ => exact po_throw _

theorem po_configure_repo (env : Env) : PreservesOrig (GHCmd._configure_repo env) := by
  unfold GHCmd._configure_repo
  refine po_bind po_getSt (fun s => ?_)
  refine po_bind (po_printLn _) (fun _ => ?_)
  refine po_ite ?_ (po_pure _)
  refine po_attempt (po_bind (po_forM _ _ (fun t => po_runChecked _ _ _))
    (fun _ => po_printLn _)) (fun e => ?_)
  cases e with
  | calledProcessError c st => exact po_printLn _
  | _ => exact po_throw _

theorem po_add_project_field (env : Env) (n t : String) :
    PreservesOrig (GHCmd._add_project_field env n t) := by
  unfold GHCmd._add_project_field
  refine po_attempt (po_runChecked _ _ _) (fun e => ?_)
  cases e with
  | calledProcessError c st => exact po_pure _
  | _ => exact po_throw _

theorem po_configure_project_template (env : Env) :
    PreservesOrig (GHCmd._configure_project_template env) := by
  unfold GHCmd._configure_project_template
  refine po_bind po_getSt (fun s => ?_)
  refine po_attempt (po_bind ?_ (fun _ => po_printLn _)) (fun e => ?_)
  · refine po_ite (po_add_project_field env _ _) ?_
    refine po_ite (po_bind (po_add_project_field env _ _) (fun _ =>
      po_bind (po_add_project_field env _ _) (fun _ => po_add_project_field env _ _))) ?_
    refine po_ite (po_bind (po_add_project_field env _ _) (fun _ =>
      po_bind (po_add_project_field env _ _) (fun _ =>
        po_bind (po_add_project_field env _ _) (fun _ => po_add_project_field env _ _))))
      (po_pure _)
  · cases e with
    | calledProcessError c st => exact po_printLn _
    | _ => exact po_throw _

theorem po_create_github_project (env : Env) :
    PreservesOrig (GHCmd._create_github_project env) := by
  unfold GHCmd._create_github_project
  refine po_bind po_getSt (fun s => ?_)
  refine po_bind (po_printLn _) (fun _ => ?_)
  refine po_attempt (po_bind (po_runChecked _ _ _) (fun _ =>
    po_bind (po_printLn _) (fun _ => po_configure_project_template env))) (fun e => ?_)
  cases e with
  | calledProcessError c st =>
    exact po_ite (po_bind (po_printLn _) (fun _ => po_printLn _))
      (po_bind (po_printLn _) (fun _ => po_printLn _))
  | _ => exact po_throw _

theorem po_commit_and_push (env : Env) : PreservesOrig (GHCmd._commit_and_push env) := by
  unfold GHCmd._commit_and_push
  refine po_bind po_getSt (fun s => ?_)
  refine po_bind (po_printLn _) (fun _ => ?_)
  refine po_bind (po_runChecked _ _ _) (fun _ => ?_)
  refine po_bind (po_runChecked _ _ _) (fun _ => ?_)
  refine po_attempt (po_runChecked _ _ _) (fun e => ?_)
  cases e with
  | calledProcessError c st => exact po_printLn _
  | _ => exact po_throw _

theorem po_rollback_changes (env : Env) : PreservesOrig (GHCmd._rollback_changes env) := by
  unfold GHCmd._rollback_changes
  refine po_bind po_getSt (fun s => ?_)
  refine po_attempt ?_ (fun e => po_printLn _)
  refine po_bind ?_ (fun _ => ?_)
  · refine po_ite ?_ (po_pure _)
    refine po_attempt (po_bind (po_printLn _) (fun _ =>
      po_bind (po_ghDelete _ _) (fun _ => po_printLn _))) (fun e => ?_)
    cases e with
    | calledProcessError c st => exact po_printLn _
    | _ => exact po_throw _
  · refine po_bind (po_pathExists _) (fun ex => ?_)
    refine po_ite ?_ (po_pure _)
    exact po_attempt (po_bind (po_printLn _) (fun _ =>
      po_bind (po_rmtree _ _) (fun _ => po_printLn _))) (fun e => po_printLn _)

theorem po_execute_steps (env : Env) : PreservesOrig (GHCmd.execute_steps env) := by
  unfold GHCmd.execute_steps
  refine po_bind po_getSt (fun s => ?_)
  refine po_bind (po_printLn _) (fun _ => ?_)
  refine po_bind (po_init_git_repo env) (fun _ => ?_)
  refine po_bind (po_create_initial_files env) (fun _ => ?_)
  refine po_bind po_create_github_workflows (fun _ => ?_)
  refine po_bind ?_ (fun _ => ?_)
  · exact po_ite po_init_docusaurus (po_pure _)
  refine po_bind (po_create_github_repo env) (fun _ => ?_)
  refine po_bind ?_ (fun _ => ?_)
  · exact po_ite (po_create_github_project env) (po_pure _)
  refine po_bind (po_configure_repo env) (fun _ => ?_)
  exact po_bind (po_commit_and_push env) (fun _ => po_printLn _)

theorem po_execute_guarded (env : Env) : PreservesOrig (GHCmd.execute_guarded env) := by
  unfold GHCmd.execute_guarded
  refine po_attempt (po_execute_steps env) (fun e => ?_)
  refine po_bind (po_printLn _) (fun _ => ?_)
  refine po_bind (po_printLn _) (fun _ => ?_)
  exact po_bind (po_rollback_changes env) (fun _ => po_throw _)
/-- C8: whenever a standalone run of execute returns successfully, the
working directory afterwards equals the working directory captured at
construction time: the finally clause restores original_dir, which no
step of the run ever modifies (the PreservesOrig lemmas above), and the
dry-run and validation-failure paths never change the directory. -/
theorem cwd_restored_on_success (env : Env) (o : GitHubInitOptions) (w : World)
    (h : (GHCmd.runExecute env o w).1 = Except.ok ()) :
    (GHCmd.runExecute env o w).2.world.cwd = w.cwd := by
  by_cases hd : o.dry_run = true
  · simp [GHCmd.runExecute, GHCmd.execute, GHCmd._execute_dry_run, GHCmd.getSt, GHCmd.mkSt, hd,
      forM_printLn]
  · have hd' : o.dry_run = false := by simpa using hd
    rcases hv : GHCmd._validate_prerequisites env (GHCmd.mkSt o w) with ⟨rv, s1⟩
    have hv_orig : s1.cs.original_dir = w.cwd := by
      have hp := po_validate env (GHCmd.mkSt o w)
      rw [hv] at hp
      simpa [GHCmd.mkSt] using hp
    simp only [GHCmd.mkSt] at hv
    simp only [GHCmd.runExecute, GHCmd.execute, GHCmd.getSt, GHCmd.mkSt, M.bind_apply, hd',
      Bool.false_eq_true, if_false] at h ⊢
    rw [hv] at h ⊢
    cases rv with
    | error e => simp at h
    | ok a =>
      rcases hb : GHCmd.execute_guarded env s1 with ⟨rb, s2⟩
      have hb_orig : s2.cs.original_dir = s1.cs.original_dir := by
        have hp := po_execute_guarded env s1
        rw [hb] at hp
        exact hp
      cases rb with
      | ok b =>
        simp [withFinally_apply, hb, GHCmd.getSt, GHCmd.chdirAbs, World.doChdir, hb_orig, hv_orig]
      | error e =>
        simp [withFinally_apply, hb, GHCmd.getSt, GHCmd.chdirAbs, World.doChdir] at h

/-- C8 witness: the restoration theorem applied to a concrete fully
successful run. -/
theorem cwd_restored_on_success_witness :
    (GHCmd.runExecute {} (minimalOpts "demo") homeWorld).1 = Except.ok () ∧
    (GHCmd.runExecute {} (minimalOpts "demo") homeWorld).2.world.cwd = homeWorld.cwd :=
  ⟨rfl, cwd_restored_on_success {} (minimalOpts "demo") homeWorld rfl⟩
